import Mathlib

/-!
Verification of the woo-hoo metadata generation core against its
natural-language specification.  The definitions below are a shallow
embedding of the Python sources:

* `src/woo_hoo/models/enums.py`        — taxonomy enumerations
* `src/woo_hoo/services/xml_parser.py` — XML-path transformer
* `src/woo_hoo/services/metadata_generator.py` — JSON-path transformer and
  the generation orchestrator
* `src/woo_hoo/services/prompt_templates.py`   — prompt builder
* `src/woo_hoo/utils/retry.py`         — retry with exponential backoff
* `src/woo_hoo/services/openrouter.py` — Anthropic-style provider path

Machine-level/runtime Python semantics (dict lookup, truthiness, string
slicing, exceptions) are made explicit; fallible code returns `Except`.
External collaborators (the lxml XML parser, `json.loads`, the XSD
validator, the clock) are abstract parameters.
-/

/-! ## Taxonomy registry (`models/enums.py`) -/

/-- Base URI shared by all TOOI value lists
(`https://identifier.overheid.nl/tooi/def/thes/kern/` + code). -/
def tooiKernBase : String := "https://identifier.overheid.nl/tooi/def/thes/kern/"

/-- The 17 Woo information categories (`InformatieCategorie`). -/
inductive InformatieCategorie where
  | WETTEN_AVV
  | OVERIGE_BESLUITEN_AS
  | ONTWERPEN_REGELGEVING
  | ORGANISATIE_WERKWIJZE
  | BEREIKBAARHEID
  | INGEKOMEN_STUKKEN
  | VERGADERSTUKKEN_SG
  | VERGADERSTUKKEN_DECENTRAAL
  | AGENDAS_BESLUITENLIJSTEN
  | ADVIEZEN
  | CONVENANTEN
  | JAARPLANNEN_JAARVERSLAGEN
  | SUBSIDIES_ANDERS
  | WOO_VERZOEKEN
  | ONDERZOEKSRAPPORTEN
  | BESCHIKKINGEN
  | KLACHTOORDELEN
deriving DecidableEq, Repr

/-- Enum member value (the TOOI code string). -/
def InformatieCategorie.value : InformatieCategorie → String
  | .WETTEN_AVV => "c_4191a648"
  | .OVERIGE_BESLUITEN_AS => "c_237d1cf1"
  | .ONTWERPEN_REGELGEVING => "c_fdee54ae"
  | .ORGANISATIE_WERKWIJZE => "c_9f5cc14e"
  | .BEREIKBAARHEID => "c_e8bf4b9e"
  | .INGEKOMEN_STUKKEN => "c_a3a6e5cf"
  | .VERGADERSTUKKEN_SG => "c_7ebb6ba0"
  | .VERGADERSTUKKEN_DECENTRAAL => "c_92a74153"
  | .AGENDAS_BESLUITENLIJSTEN => "c_5540d806"
  | .ADVIEZEN => "c_5ba23c01"
  | .CONVENANTEN => "c_9fe65c9f"
  | .JAARPLANNEN_JAARVERSLAGEN => "c_9b4ab167"
  | .SUBSIDIES_ANDERS => "c_8ac47458"
  | .WOO_VERZOEKEN => "c_4edc7ff0"
  | .ONDERZOEKSRAPPORTEN => "c_28fb3d66"
  | .BESCHIKKINGEN => "c_0b6bd881"
  | .KLACHTOORDELEN => "c_b2f30ab9"

/-- Enum member name (Python `member.name`), used by the JSON path. -/
def InformatieCategorie.memberName : InformatieCategorie → String
  | .WETTEN_AVV => "WETTEN_AVV"
  | .OVERIGE_BESLUITEN_AS => "OVERIGE_BESLUITEN_AS"
  | .ONTWERPEN_REGELGEVING => "ONTWERPEN_REGELGEVING"
  | .ORGANISATIE_WERKWIJZE => "ORGANISATIE_WERKWIJZE"
  | .BEREIKBAARHEID => "BEREIKBAARHEID"
  | .INGEKOMEN_STUKKEN => "INGEKOMEN_STUKKEN"
  | .VERGADERSTUKKEN_SG => "VERGADERSTUKKEN_SG"
  | .VERGADERSTUKKEN_DECENTRAAL => "VERGADERSTUKKEN_DECENTRAAL"
  | .AGENDAS_BESLUITENLIJSTEN => "AGENDAS_BESLUITENLIJSTEN"
  | .ADVIEZEN => "ADVIEZEN"
  | .CONVENANTEN => "CONVENANTEN"
  | .JAARPLANNEN_JAARVERSLAGEN => "JAARPLANNEN_JAARVERSLAGEN"
  | .SUBSIDIES_ANDERS => "SUBSIDIES_ANDERS"
  | .WOO_VERZOEKEN => "WOO_VERZOEKEN"
  | .ONDERZOEKSRAPPORTEN => "ONDERZOEKSRAPPORTEN"
  | .BESCHIKKINGEN => "BESCHIKKINGEN"
  | .KLACHTOORDELEN => "KLACHTOORDELEN"

/-- `INFORMATIECATEGORIE_LABELS` (the Dutch labels; the apostrophe in the
AGENDAS label is written with the `\x27` escape). -/
def InformatieCategorie.label : InformatieCategorie → String
  | .WETTEN_AVV => "Wetten en algemeen verbindende voorschriften"
  | .OVERIGE_BESLUITEN_AS => "Overige besluiten van algemene strekking"
  | .ONTWERPEN_REGELGEVING => "Ontwerpen van regelgeving met adviesaanvraag"
  | .ORGANISATIE_WERKWIJZE => "Organisatie en werkwijze"
  | .BEREIKBAARHEID => "Bereikbaarheidsgegevens"
  | .INGEKOMEN_STUKKEN => "Bij vertegenwoordigende organen ingekomen stukken"
  | .VERGADERSTUKKEN_SG => "Vergaderstukken Staten-Generaal"
  | .VERGADERSTUKKEN_DECENTRAAL => "Vergaderstukken decentrale overheden"
  | .AGENDAS_BESLUITENLIJSTEN => "Agenda\x27s en besluitenlijsten bestuurscolleges"
  | .ADVIEZEN => "Adviezen"
  | .CONVENANTEN => "Convenanten"
  | .JAARPLANNEN_JAARVERSLAGEN => "Jaarplannen en jaarverslagen"
  | .SUBSIDIES_ANDERS => "Subsidieverplichtingen anders dan met beschikking"
  | .WOO_VERZOEKEN => "Woo-verzoeken en -besluiten"
  | .ONDERZOEKSRAPPORTEN => "Onderzoeksrapporten"
  | .BESCHIKKINGEN => "Beschikkingen"
  | .KLACHTOORDELEN => "Klachtoordelen"

/-- Declaration order of the 17 categories (Python enum iteration order). -/
def informatieCategorieAll : List InformatieCategorie :=
  [.WETTEN_AVV, .OVERIGE_BESLUITEN_AS, .ONTWERPEN_REGELGEVING, .ORGANISATIE_WERKWIJZE,
   .BEREIKBAARHEID, .INGEKOMEN_STUKKEN, .VERGADERSTUKKEN_SG, .VERGADERSTUKKEN_DECENTRAAL,
   .AGENDAS_BESLUITENLIJSTEN, .ADVIEZEN, .CONVENANTEN, .JAARPLANNEN_JAARVERSLAGEN,
   .SUBSIDIES_ANDERS, .WOO_VERZOEKEN, .ONDERZOEKSRAPPORTEN, .BESCHIKKINGEN, .KLACHTOORDELEN]

/-- `InformatieCategorie[name]` — lookup by member name (raises `KeyError`
in Python, hence `Option`). -/
def informatieCategorieFromName (s : String) : Option InformatieCategorie :=
  informatieCategorieAll.find? fun c => c.memberName = s

/-- `InformatieCategorie(code)` — lookup by value (XML path). -/
def informatieCategorieFromCode (s : String) : Option InformatieCategorie :=
  informatieCategorieAll.find? fun c => c.value = s

/-- `InformatieCategorie.tooi_uri`. -/
def InformatieCategorie.tooi_uri (c : InformatieCategorie) : String :=
  tooiKernBase ++ c.value

/-- Document types (`DocumentSoort`). -/
inductive DocumentSoort where
  | BRIEF | NOTA | RAPPORT | BESLUIT | ADVIES | NOTULEN | AGENDA | VERSLAG
  | CONVENANT | OVEREENKOMST | BELEIDSREGEL | CIRCULAIRE | BESCHIKKING
  | WOO_BESLUIT | ONDERZOEKSRAPPORT | JAARVERSLAG | JAARPLAN | KLACHTOORDEEL
  | MEMORIE_VAN_TOELICHTING | AMENDEMENT | MOTIE
deriving DecidableEq, Repr

/-- Enum member value. -/
def DocumentSoort.value : DocumentSoort → String
  | .BRIEF => "c_brief"
  | .NOTA => "c_nota"
  | .RAPPORT => "c_rapport"
  | .BESLUIT => "c_besluit"
  | .ADVIES => "c_advies"
  | .NOTULEN => "c_notulen"
  | .AGENDA => "c_agenda"
  | .VERSLAG => "c_verslag"
  | .CONVENANT => "c_convenant"
  | .OVEREENKOMST => "c_overeenkomst"
  | .BELEIDSREGEL => "c_beleidsregel"
  | .CIRCULAIRE => "c_circulaire"
  | .BESCHIKKING => "c_beschikking"
  | .WOO_BESLUIT => "c_woo_besluit"
  | .ONDERZOEKSRAPPORT => "c_onderzoeksrapport"
  | .JAARVERSLAG => "c_jaarverslag"
  | .JAARPLAN => "c_jaarplan"
  | .KLACHTOORDEEL => "c_klachtoordeel"
  | .MEMORIE_VAN_TOELICHTING => "c_memorie_van_toelichting"
  | .AMENDEMENT => "c_amendement"
  | .MOTIE => "c_motie"

/-- Enum member name. -/
def DocumentSoort.memberName : DocumentSoort → String
  | .BRIEF => "BRIEF"
  | .NOTA => "NOTA"
  | .RAPPORT => "RAPPORT"
  | .BESLUIT => "BESLUIT"
  | .ADVIES => "ADVIES"
  | .NOTULEN => "NOTULEN"
  | .AGENDA => "AGENDA"
  | .VERSLAG => "VERSLAG"
  | .CONVENANT => "CONVENANT"
  | .OVEREENKOMST => "OVEREENKOMST"
  | .BELEIDSREGEL => "BELEIDSREGEL"
  | .CIRCULAIRE => "CIRCULAIRE"
  | .BESCHIKKING => "BESCHIKKING"
  | .WOO_BESLUIT => "WOO_BESLUIT"
  | .ONDERZOEKSRAPPORT => "ONDERZOEKSRAPPORT"
  | .JAARVERSLAG => "JAARVERSLAG"
  | .JAARPLAN => "JAARPLAN"
  | .KLACHTOORDEEL => "KLACHTOORDEEL"
  | .MEMORIE_VAN_TOELICHTING => "MEMORIE_VAN_TOELICHTING"
  | .AMENDEMENT => "AMENDEMENT"
  | .MOTIE => "MOTIE"

/-- Declaration order of all document types. -/
def documentSoortAll : List DocumentSoort :=
  [.BRIEF, .NOTA, .RAPPORT, .BESLUIT, .ADVIES, .NOTULEN, .AGENDA, .VERSLAG,
   .CONVENANT, .OVEREENKOMST, .BELEIDSREGEL, .CIRCULAIRE, .BESCHIKKING,
   .WOO_BESLUIT, .ONDERZOEKSRAPPORT, .JAARVERSLAG, .JAARPLAN, .KLACHTOORDEEL,
   .MEMORIE_VAN_TOELICHTING, .AMENDEMENT, .MOTIE]

/-- `DocumentSoort[name]`. -/
def documentSoortFromName (s : String) : Option DocumentSoort :=
  documentSoortAll.find? fun c => c.memberName = s

/-- `DocumentSoort(code)`. -/
def documentSoortFromCode (s : String) : Option DocumentSoort :=
  documentSoortAll.find? fun c => c.value = s

/-- `DocumentSoort.tooi_uri`. -/
def DocumentSoort.tooi_uri (c : DocumentSoort) : String :=
  tooiKernBase ++ c.value

/-- Document handling types (`SoortHandeling`). -/
inductive SoortHandeling where
  | ONTVANGST | VASTSTELLING | ONDERTEKENING | PUBLICATIE
  | INWERKINGTREDING | WIJZIGING | INTREKKING | REGISTRATIE
deriving DecidableEq, Repr

/-- Enum member value. -/
def SoortHandeling.value : SoortHandeling → String
  | .ONTVANGST => "c_ontvangst"
  | .VASTSTELLING => "c_vaststelling"
  | .ONDERTEKENING => "c_ondertekening"
  | .PUBLICATIE => "c_publicatie"
  | .INWERKINGTREDING => "c_inwerkingtreding"
  | .WIJZIGING => "c_wijziging"
  | .INTREKKING => "c_intrekking"
  | .REGISTRATIE => "c_registratie"

/-- Declaration order of all handling types. -/
def soortHandelingAll : List SoortHandeling :=
  [.ONTVANGST, .VASTSTELLING, .ONDERTEKENING, .PUBLICATIE,
   .INWERKINGTREDING, .WIJZIGING, .INTREKKING, .REGISTRATIE]

/-- `SoortHandeling(code)`. -/
def soortHandelingFromCode (s : String) : Option SoortHandeling :=
  soortHandelingAll.find? fun c => c.value = s

/-- `SoortHandeling.tooi_uri`. -/
def SoortHandeling.tooi_uri (c : SoortHandeling) : String :=
  tooiKernBase ++ c.value

/-- Language codes (`Taal`). -/
inductive Taal where
  | NL | EN | DE | FR | FY | PAP
deriving DecidableEq, Repr

/-- Enum member value. -/
def Taal.value : Taal → String
  | .NL => "c_nl"
  | .EN => "c_en"
  | .DE => "c_de"
  | .FR => "c_fr"
  | .FY => "c_fy"
  | .PAP => "c_pap"

/-- Enum member name. -/
def Taal.memberName : Taal → String
  | .NL => "NL"
  | .EN => "EN"
  | .DE => "DE"
  | .FR => "FR"
  | .FY => "FY"
  | .PAP => "PAP"

/-- Declaration order of all languages. -/
def taalAll : List Taal := [.NL, .EN, .DE, .FR, .FY, .PAP]

/-- `Taal[name]`. -/
def taalFromName (s : String) : Option Taal :=
  taalAll.find? fun c => c.memberName = s

/-- `Taal(code)`. -/
def taalFromCode (s : String) : Option Taal :=
  taalAll.find? fun c => c.value = s

/-- `Taal.tooi_uri`. -/
def Taal.tooi_uri (c : Taal) : String :=
  tooiKernBase ++ c.value

/-- Document relation types (`DocumentRelatie`). -/
inductive DocumentRelatie where
  | VERVANGT | WORDT_VERVANGEN_DOOR | WIJZIGT | WORDT_GEWIJZIGD_DOOR
  | INTREKT | WORDT_INGETROKKEN_DOOR | HEEFT_BIJLAGE | IS_BIJLAGE_VAN
deriving DecidableEq, Repr

/-- Enum member value. -/
def DocumentRelatie.value : DocumentRelatie → String
  | .VERVANGT => "c_vervangt"
  | .WORDT_VERVANGEN_DOOR => "c_wordt_vervangen_door"
  | .WIJZIGT => "c_wijzigt"
  | .WORDT_GEWIJZIGD_DOOR => "c_wordt_gewijzigd_door"
  | .INTREKT => "c_intrekt"
  | .WORDT_INGETROKKEN_DOOR => "c_wordt_ingetrokken_door"
  | .HEEFT_BIJLAGE => "c_heeft_bijlage"
  | .IS_BIJLAGE_VAN => "c_is_bijlage_van"

/-- Declaration order of all relation types. -/
def documentRelatieAll : List DocumentRelatie :=
  [.VERVANGT, .WORDT_VERVANGEN_DOOR, .WIJZIGT, .WORDT_GEWIJZIGD_DOOR,
   .INTREKT, .WORDT_INGETROKKEN_DOOR, .HEEFT_BIJLAGE, .IS_BIJLAGE_VAN]

/-- `DocumentRelatie(code)`. -/
def documentRelatieFromCode (s : String) : Option DocumentRelatie :=
  documentRelatieAll.find? fun c => c.value = s

/-- `DocumentRelatie.tooi_uri`. -/
def DocumentRelatie.tooi_uri (c : DocumentRelatie) : String :=
  tooiKernBase ++ c.value

/-! ## URI-to-code extraction (`xml_parser._extract_category_code`)

Python: `re.search(r"(c_[a-z0-9_]+)$", resource)`.  The regex is anchored
at the end of the string, so a match is a suffix of the form
`c_` followed by one or more characters from `[a-z0-9_]`; `re.search`
returns the leftmost such suffix. -/

/-- Character class `[a-z0-9_]`. -/
def isCodeChar (c : Char) : Bool :=
  (Char.ofNat 97 ≤ c && c ≤ Char.ofNat 122) || (Char.ofNat 48 ≤ c && c ≤ Char.ofNat 57) || c = Char.ofNat 95

/-- Whether the whole char list matches `c_[a-z0-9_]+` (to the end). -/
def codeMatchAt : List Char → Bool
  | 'c' :: '_' :: rest => !rest.isEmpty && rest.all isCodeChar
  | _ => false

/-- Leftmost suffix matching `c_[a-z0-9_]+$`. -/
def findCodeSuffix : List Char → Option (List Char)
  | [] => none
  | c :: rest =>
    if codeMatchAt (c :: rest) then some (c :: rest) else findCodeSuffix rest

/-- `_extract_category_code(resource)`: extract the trailing TOOI code from
a URI; `None`/empty input yields `None` (Python truthiness guard). -/
def extract_category_code (resource : Option String) : Option String :=
  match resource with
  | none => none
  | some s => if s = "" then none else (findCodeSuffix s.data).map fun l => String.mk l

/-! ## Retry with exponential backoff (`utils/retry.py`)

`with_retry` is an async loop around a fallible call.  We model the call
as a function from the attempt number (1-based) to an outcome, and return
both the loop's result and the trace of delays passed to `asyncio.sleep`,
in order.  Delays are modelled as rationals computed by the exact formula
`min(base_delay * exponential_base ** (attempt - 1), max_delay)`. -/

/-- `RetryConfig` (defaults as in the source). -/
structure RetryConfig where
  max_attempts : Nat := 3
  base_delay : ℚ := 1
  max_delay : ℚ := 30
  exponential_base : ℚ := 2
  retryable_status_codes : List Nat := [429, 500, 502, 503, 504]
deriving DecidableEq, Repr

/-- Outcome of one underlying call: success, `httpx.HTTPStatusError` with a
status code, or `httpx.RequestError` (network/connection failure). -/
inductive CallOutcome (α : Type) where
  | ok (v : α)
  | httpStatusError (code : Nat)
  | requestError (msg : String)
deriving DecidableEq, Repr

/-- The exception recorded in `last_exception`. -/
inductive RetryFailure where
  | httpStatus (code : Nat)
  | request (msg : String)
deriving DecidableEq, Repr

/-- Result of the retry loop: the value (with the attempt that produced
it), a re-raised non-retryable `HTTPStatusError`, or `RetryExhaustedError`
whose cause is the last underlying exception (`none` only when
`max_attempts = 0`, where the loop body never runs). -/
inductive RetryResult (α : Type) where
  | success (v : α) (attempt : Nat)
  | raised (code : Nat) (attempt : Nat)
  | exhausted (cause : Option RetryFailure)
deriving DecidableEq, Repr

/-- The delay computed before retrying after attempt `attempt`:
`min(base_delay * exponential_base ** (attempt - 1), max_delay)`. -/
def retry_delay (cfg : RetryConfig) (attempt : Nat) : ℚ :=
  min (cfg.base_delay * cfg.exponential_base ^ (attempt - 1)) cfg.max_delay

/-- The retryable-failure classification of an outcome: a request error is
always retryable, an HTTP status error only when its code is in
`retryable_status_codes`. -/
def CallOutcome.isRetryableFail (cfg : RetryConfig) : CallOutcome α → Bool
  | .ok _ => false
  | .httpStatusError c => decide (c ∈ cfg.retryable_status_codes)
  | .requestError _ => true

/-- The `last_exception` value an outcome records. -/
def CallOutcome.failure : CallOutcome α → Option RetryFailure
  | .ok _ => none
  | .httpStatusError c => some (.httpStatus c)
  | .requestError m => some (.request m)

/-- Body of the `for attempt in range(1, max_attempts + 1)` loop;
`remaining` is `max_attempts - attempt + 1` (the loop maintains
`attempt + remaining = max_attempts + 1`).  On a non-retryable HTTP status
error the exception is re-raised before the attempt budget is consulted;
a retryable failure on the final attempt breaks out of the loop and
raises `RetryExhaustedError` from the last exception. -/
def with_retry_go (cfg : RetryConfig) (f : Nat → CallOutcome α) :
    Nat → Nat → RetryResult α × List ℚ
  | _, 0 => (.exhausted none, [])
  | attempt, r + 1 =>
    match f attempt with
    | .ok v => (.success v attempt, [])
    | .httpStatusError c =>
      if c ∈ cfg.retryable_status_codes then
        if r = 0 then (.exhausted (some (.httpStatus c)), [])
        else
          let rest := with_retry_go cfg f (attempt + 1) r
          (rest.1, retry_delay cfg attempt :: rest.2)
      else (.raised c attempt, [])
    | .requestError m =>
      if r = 0 then (.exhausted (some (.request m)), [])
      else
        let rest := with_retry_go cfg f (attempt + 1) r
        (rest.1, retry_delay cfg attempt :: rest.2)

/-- `with_retry(func, config)`: run the loop from attempt 1. -/
def with_retry (cfg : RetryConfig) (f : Nat → CallOutcome α) :
    RetryResult α × List ℚ :=
  with_retry_go cfg f 1 cfg.max_attempts

/-! ## Prompt builder (`services/prompt_templates.py`)

`build_extraction_prompt` renders one of two `string.Template` texts,
substituting the (possibly truncated) document text, the optional
publisher-hint section and, for the JSON template, the category options.
Python string slicing/length act on code points, matching Lean
`List Char` operations. -/

/-- `OutputMode`. -/
inductive OutputMode where
  | json
  | xml
deriving DecidableEq, Repr

/-- Python string slice `s[:n]`. -/
def pySlice (s : String) (n : Nat) : String := String.mk (s.data.take n)

/-- The marker appended when the document text is truncated
(`"\n\n[... TEKST AFGEKAPT WEGENS LENGTE ...]"`). -/
def truncationNotice : String := "\n\n[... TEKST AFGEKAPT WEGENS LENGTE ...]"

/-- `category_options` as built inside `build_extraction_prompt`:
`"- {cat.name}: {label}"` joined by newlines, in declaration order. -/
def categoryOptions : String :=
  String.intercalate "\n"
    (informatieCategorieAll.map fun c => "- " ++ c.memberName ++ ": " ++ c.label)

/-- `EXTRACTION_PROMPT_JSON` with its three placeholders substituted. -/
def extraction_prompt_json (document_text publisher_hint category_options : String) : String :=
  "Analyseer het volgende document en genereer DIWOO-conforme metadata.\n\n## DOCUMENT\n---\n"
  ++ document_text
  ++ "\n---\n"
  ++ publisher_hint
  ++ "\n\n## OPDRACHT\n\nExtraheer metadata volgens het DIWOO schema in de systeemprompt.\n\nBelangrijke extractie-instructies:\n1. Zoek naar KENMERK, zaaknummer, referentienummers → identifiers\n2. Zoek naar organisatie in briefhoofd, handtekening, retouradres → publisher\n3. Zoek naar datums in briefhoofd of tekst → creatiedatum\n4. Zoek naar onderwerpregel of documenttitel → titelcollectie.officieleTitel\n5. Zoek naar namen in handtekeningblok → naamOpsteller\n6. Identificeer bijlagen, verwijzingen → documentrelaties\n\nCATEGORIE CODES (gebruik exact deze waarden):\n"
  ++ category_options
  ++ "\n\nRetourneer ALLEEN valid JSON volgens het schema, geen andere tekst."

/-- `EXTRACTION_PROMPT_XML` with its placeholders substituted (this
template has no category-options placeholder). -/
def extraction_prompt_xml (document_text publisher_hint : String) : String :=
  "Analyseer het volgende document en genereer DIWOO-conforme metadata als XML.\n\n## DOCUMENT\n---\n"
  ++ document_text
  ++ "\n---\n"
  ++ publisher_hint
  ++ "\n\n## OPDRACHT\n\nExtraheer metadata en genereer valid XML volgens het DIWOO XSD schema (v0.9.8).\n\nBelangrijke extractie-instructies:\n1. Zoek naar KENMERK, zaaknummer, referentienummers → diwoo:identifiers\n2. Zoek naar organisatie in briefhoofd, handtekening, retouradres → diwoo:publisher\n3. Zoek naar datums in briefhoofd of tekst → diwoo:creatiedatum\n4. Zoek naar onderwerpregel of documenttitel → diwoo:officieleTitel\n5. Zoek naar namen in handtekeningblok → diwoo:naamOpsteller\n6. Identificeer bijlagen, verwijzingen → diwoo:documentrelaties\n\nRetourneer ALLEEN valid XML met de diwoo namespace, geen markdown codeblocks of uitleg."

/-- The publisher-hint section: empty unless a truthy hint is supplied. -/
def publisherSection (publisher_hint : Option String) : String :=
  match publisher_hint with
  | some h => if h = "" then "" else "\nPUBLISHER HINT: " ++ h ++ "\n"
  | none => ""

/-- Dispatch on the output mode (the XML template ignores the category
options, exactly as `Template.substitute` does for an absent placeholder). -/
def renderExtractionTemplate (output_mode : OutputMode)
    (document_text publisher_hint : String) : String :=
  match output_mode with
  | .json => extraction_prompt_json document_text publisher_hint categoryOptions
  | .xml => extraction_prompt_xml document_text publisher_hint

/-- `build_extraction_prompt(document_text, publisher_hint,
max_text_length, output_mode)`. -/
def build_extraction_prompt (document_text : String)
    (publisher_hint : Option String) (max_text_length : Nat := 15000)
    (output_mode : OutputMode := .json) : String :=
  let truncated_text :=
    if document_text.length > max_text_length then
      pySlice document_text max_text_length ++ truncationNotice
    else
      pySlice document_text max_text_length
  renderExtractionTemplate output_mode truncated_text (publisherSection publisher_hint)

/-- Prefix test on char lists (needle first). -/
def charsStartWith : List Char → List Char → Bool
  | [], _ => true
  | _ :: _, [] => false
  | a :: as, b :: bs => a = b && charsStartWith as bs

/-- Substring test on char lists (needle first). -/
def charsContainSub (needle : List Char) : List Char → Bool
  | [] => needle.isEmpty
  | c :: rest => charsStartWith needle (c :: rest) || charsContainSub needle rest

/-! ## Python value model

JSON values as returned by `json.loads` (numbers as rationals), plus the
pieces of Python runtime semantics the transformers rely on: dict lookup,
truthiness, f-string rendering, and ISO date parsing.  Exceptions raised
at runtime (AttributeError/TypeError) and pydantic `ValidationError` are
made explicit in the `PipelineError` type. -/

/-- A parsed JSON value. -/
inductive Json where
  | null
  | bool (b : Bool)
  | num (q : ℚ)
  | str (s : String)
  | arr (elems : List Json)
  | obj (fields : List (String × Json))

/-- Dict lookup `d.get(key)` (json-decoded dicts have unique keys). -/
def jsonGet (fields : List (String × Json)) (key : String) : Option Json :=
  (fields.find? fun kv => kv.1 = key).map (·.2)

/-- Dict lookup with default `d.get(key, default)` (a present `null`
value is returned as `null`, not replaced by the default). -/
def jsonGetD (fields : List (String × Json)) (key : String) (default : Json) : Json :=
  (jsonGet fields key).getD default

/-- Python truthiness of a JSON value. -/
def Json.truthy : Json → Bool
  | .null => false
  | .bool b => b
  | .num q => q ≠ 0
  | .str s => s ≠ ""
  | .arr xs => !xs.isEmpty
  | .obj fs => !fs.isEmpty

/-- Whether the value is a JSON array (`isinstance(v, list)`). -/
def Json.isArr : Json → Bool
  | .arr _ => true
  | _ => false

/-- `x or y` where `x` is `d.get(k)` and `y` a JSON value. -/
def pyOrJson (a : Option Json) (b : Json) : Json :=
  match a with
  | some v => if v.truthy then v else b
  | none => b

/-- `x or y` where both sides are `d.get(k)` results. -/
def pyOrOptJson (a b : Option Json) : Option Json :=
  match a with
  | some v => if v.truthy then some v else b
  | none => b

/-- f-string rendering `str(v)` of a JSON value.  The claims and
witnesses only ever render strings; the rendering of containers is
abbreviated (it only ever flows into placeholder URI text). -/
def pyStr : Json → String
  | .str s => s
  | .bool true => "True"
  | .bool false => "False"
  | .null => "None"
  | .num q => toString q
  | .arr _ => "[...]"
  | .obj _ => "\x7b...\x7d"

/-- Python `str.upper()` (code-point map; ASCII case change as in
`Char.toUpper`). -/
def pyToUpper (s : String) : String := String.mk (s.data.map Char.toUpper)

/-- Python `str.strip()`: drop leading and trailing whitespace. -/
def pyStrip (s : String) : String :=
  String.mk (((s.data.dropWhile Char.isWhitespace).reverse.dropWhile
    Char.isWhitespace).reverse)

/-- Python `str.startswith(pre)`. -/
def pyStartsWith (s pre : String) : Bool := charsStartWith pre.data s.data

/-- Python `s.replace("Z", "+00:00")` (the only `str.replace` call with a
multi-character replacement in the sources). -/
def pyReplaceZ (s : String) : String :=
  String.mk ((s.data.map fun c => if c = 'Z' then "+00:00".data else [c]).flatten)

/-- Exceptions observable at the orchestrator boundary:
`XMLParseError`, `XMLValidationError`, pydantic `ValidationError`, and
any other runtime exception (TypeError/AttributeError/...). -/
inductive PipelineError where
  | xmlParse (msg : String)
  | xmlValidation (msg : String)
  | validation (msg : String)
  | pyError (msg : String)
deriving DecidableEq, Repr

/-- Python iteration `for x in v`: arrays yield elements, strings yield
one-character strings, dicts yield their keys; scalars raise
`TypeError`. -/
def pyIter (j : Json) : Except PipelineError (List Json) :=
  match j with
  | .arr xs => .ok xs
  | .str s => .ok (s.data.map fun c => .str (String.mk [c]))
  | .obj fs => .ok (fs.map fun kv => .str kv.1)
  | _ => .error (.pyError "TypeError: object is not iterable")

/-- A Python `date`. -/
structure PyDate where
  year : Nat
  month : Nat
  day : Nat
deriving DecidableEq, Repr

/-- A Python timezone-aware or naive `datetime`, identified by its
normalised ISO text (the transformers only store and compare these). -/
structure PyDateTime where
  iso : String
deriving DecidableEq, Repr

/-- Numeric value of a digit character. -/
def digitVal (c : Char) : Nat := c.toNat - 48

/-- Model of the stdlib `date.fromisoformat` (strict `YYYY-MM-DD`; the
claims never depend on the exact accepted grammar, only on
success/failure being propagated as the source dictates). -/
def date_fromisoformat (s : String) : Option PyDate :=
  match s.data with
  | [y1, y2, y3, y4, sep1, m1, m2, sep2, d1, d2] =>
    if sep1 = '-' && sep2 = '-' &&
        [y1, y2, y3, y4, m1, m2, d1, d2].all Char.isDigit then
      let yyyy := 1000 * digitVal y1 + 100 * digitVal y2 + 10 * digitVal y3 + digitVal y4
      let mm := 10 * digitVal m1 + digitVal m2
      let dd := 10 * digitVal d1 + digitVal d2
      if 1 ≤ mm && mm ≤ 12 && 1 ≤ dd && dd ≤ 31 then some ⟨yyyy, mm, dd⟩ else none
    else none
  | _ => none

/-- Model of the stdlib `datetime.fromisoformat`: a valid date,
optionally followed by a `T` or space separator and a time part. -/
def datetime_fromisoformat (s : String) : Option PyDateTime :=
  match date_fromisoformat (pySlice s 10) with
  | none => none
  | some _ =>
    if s.length = 10 then some ⟨s⟩
    else
      match s.data.drop 10 with
      | 'T' :: _ :: _ => some ⟨s⟩
      | ' ' :: _ :: _ => some ⟨s⟩
      | _ => none

/-- A pydantic `HttpUrl`. -/
structure HttpUrl where
  url : String
deriving DecidableEq, Repr

/-- Approximate model of pydantic `HttpUrl` validation: the scheme must
be http or https (all URLs the transformers build or accept are checked
through this). -/
def pydantic_check_url (s : String) : Except PipelineError HttpUrl :=
  if pyStartsWith s "http://" || pyStartsWith s "https://" then .ok ⟨s⟩
  else .error (.validation ("invalid HttpUrl: " ++ s))

/-! ## Domain model (`models/diwoo.py`)

Plain structures; where a pydantic field constraint can actually fail on
transformer-produced data (title length, string fields fed from LLM
JSON, confidence ranges, URLs) a validating constructor returning
`Except` is used at exactly the points where the source constructs the
pydantic model. -/

/-- `Organisatie` (TOOI resource + label). -/
structure Organisatie where
  resource : HttpUrl
  label : String
deriving DecidableEq, Repr

/-- `InformatieCategorieMeta`. -/
structure InformatieCategorieMeta where
  categorie : InformatieCategorie
deriving DecidableEq, Repr

/-- `DocumentSoortMeta`. -/
structure DocumentSoortMeta where
  soort : DocumentSoort
deriving DecidableEq, Repr

/-- `ThemaMeta`. -/
structure ThemaMeta where
  resource : HttpUrl
  label : String
deriving DecidableEq, Repr

/-- `TitelCollectie`. -/
structure TitelCollectie where
  officiele_titel : String
  verkorte_titels : Option (List String) := none
  alternatieve_titels : Option (List String) := none
deriving DecidableEq, Repr

/-- Pydantic construction of `TitelCollectie`
(`officiele_titel` length in `[1, 2000]`). -/
def mkTitelCollectie (officiele_titel : String)
    (verkorte_titels alternatieve_titels : Option (List String)) :
    Except PipelineError TitelCollectie :=
  if officiele_titel.length = 0 then
    .error (.validation "officieleTitel: too short")
  else if 2000 < officiele_titel.length then
    .error (.validation "officieleTitel: too long")
  else
    .ok ⟨officiele_titel, verkorte_titels, alternatieve_titels⟩

/-- `ClassificatieCollectie`. -/
structure ClassificatieCollectie where
  informatiecategorieen : List InformatieCategorieMeta
  documentsoorten : Option (List DocumentSoortMeta) := none
  themas : Option (List ThemaMeta) := none
  trefwoorden : Option (List String) := none
deriving DecidableEq, Repr

/-- `SoortHandelingMeta`. -/
structure SoortHandelingMeta where
  handeling : SoortHandeling
deriving DecidableEq, Repr

/-- `DocumentHandeling`. -/
structure DocumentHandeling where
  soort_handeling : SoortHandelingMeta
  at_time : PyDateTime
  was_associated_with : Option Organisatie := none
deriving DecidableEq, Repr

/-- `Geldigheid`. -/
structure Geldigheid where
  begindatum : Option PyDateTime := none
  einddatum : Option PyDateTime := none
deriving DecidableEq, Repr

/-- `TaalMeta`. -/
structure TaalMeta where
  taal : Taal := .NL
deriving DecidableEq, Repr

/-- `FormatMeta`. -/
structure FormatMeta where
  resource : HttpUrl
  label : String
deriving DecidableEq, Repr

/-- `DocumentVerwijzing`. -/
structure DocumentVerwijzing where
  resource : Option String := none
  label : String
deriving DecidableEq, Repr

/-- `DocumentRelatieMeta`. -/
structure DocumentRelatieMeta where
  relatie : DocumentRelatie
deriving DecidableEq, Repr

/-- `DocumentRelatieItem`. -/
structure DocumentRelatieItem where
  role : DocumentRelatieMeta
  relation : DocumentVerwijzing
deriving DecidableEq, Repr

/-- `DiWooMetadata` (fields the transformers never populate keep their
`None` defaults, as in the source). -/
structure DiWooMetadata where
  identifiers : Option (List String) := none
  publisher : Organisatie
  verantwoordelijke : Option Organisatie := none
  medeverantwoordelijken : Option (List Organisatie) := none
  opsteller : Option Organisatie := none
  naam_opsteller : Option String := none
  titelcollectie : TitelCollectie
  omschrijvingen : Option (List String) := none
  classificatiecollectie : ClassificatieCollectie
  creatiedatum : Option PyDate := none
  geldigheid : Option Geldigheid := none
  language : Option TaalMeta := none
  format : Option FormatMeta := none
  aggregatiekenmerk : Option String := none
  is_part_of : Option DocumentVerwijzing := none
  has_parts : Option (List DocumentVerwijzing) := none
  documenthandelingen : List DocumentHandeling
  documentrelaties : Option (List DocumentRelatieItem) := none
deriving DecidableEq, Repr

/-- `FieldConfidence` (`models/responses.py`). -/
structure FieldConfidence where
  field_name : String
  confidence : ℚ
  reasoning : Option String := none
deriving DecidableEq, Repr

/-- Pydantic construction of `FieldConfidence` (`confidence` in `[0, 1]`). -/
def mkFieldConfidence (field_name : String) (confidence : ℚ)
    (reasoning : Option String) : Except PipelineError FieldConfidence :=
  if 0 ≤ confidence && confidence ≤ 1 then .ok ⟨field_name, confidence, reasoning⟩
  else .error (.validation "confidence out of range")

/-- `ConfidenceScores`. -/
structure ConfidenceScores where
  overall : ℚ
  fields : List FieldConfidence := []
deriving DecidableEq, Repr

/-- `MetadataSuggestion`. -/
structure MetadataSuggestion where
  metadata : DiWooMetadata
  confidence : ConfidenceScores
  model_used : String
  processing_time_ms : Nat
deriving DecidableEq, Repr

/-- `MetadataGenerationResponse`. -/
structure MetadataGenerationResponse where
  success : Bool
  request_id : String
  suggestion : Option MetadataSuggestion := none
  error : Option String := none
deriving DecidableEq, Repr

/-- `PublisherHint` (`models/requests.py`; `name` is validated non-empty
at the API boundary). -/
structure PublisherHint where
  name : String
  tooi_uri : Option HttpUrl := none
deriving DecidableEq, Repr

/-- `MetadataGenerationRequest` (document content flattened to its text;
the other document fields do not flow into generation). -/
structure MetadataGenerationRequest where
  document_text : String
  publisher_hint : Option PublisherHint := none
  model : String
  include_confidence : Bool := true
deriving DecidableEq, Repr

/-- Pydantic validation of an optional `list[str]` field fed from LLM
JSON (`None` stays `None`; a list must contain only strings; anything
else is a `ValidationError`). -/
def pydantic_opt_str_list (v : Option Json) :
    Except PipelineError (Option (List String)) :=
  match v with
  | none => .ok none
  | some .null => .ok none
  | some (.arr xs) => do
    let strs ← xs.mapM fun j =>
      match j with
      | .str s => Except.ok s
      | _ => Except.error (PipelineError.validation "expected a string")
    .ok (some strs)
  | some _ => .error (.validation "expected a list of strings")

/-- Pydantic validation of an optional `str` field fed from LLM JSON. -/
def pydantic_opt_str (v : Option Json) : Except PipelineError (Option String) :=
  match v with
  | none => .ok none
  | some .null => .ok none
  | some (.str s) => .ok (some s)
  | some _ => .error (.validation "expected a string")

/-! ## JSON-path transformer (`MetadataGenerator._transform_to_diwoo`)

Each helper mirrors one block of the source method; the whole
transformation returns `Except PipelineError DiWooMetadata`, the error
cases being exactly the exceptions the Python code can raise (pydantic
`ValidationError`, `TypeError`/`AttributeError` from duck typing). -/

/-- The fixed placeholder organisation URI. -/
def placeholderOrgUrl : HttpUrl :=
  ⟨"https://identifier.overheid.nl/tooi/id/organisatie/placeholder"⟩

/-- `_extract_organisation(llm_data, hint)`: prefer a truthy LLM `name`,
else the caller hint, else the fixed placeholder. -/
def extract_organisation (llm_data : Option Json) (hint : Option PublisherHint) :
    Except PipelineError Organisatie :=
  let fromLLM : Option (Except PipelineError Organisatie) :=
    match llm_data with
    | some (.obj fs) =>
      if (Json.obj fs).truthy then
        match jsonGet fs "name" with
        | some nameJ =>
          if nameJ.truthy then
            some (do
              let org_type := jsonGetD fs "type" (.str "organisatie")
              let uri := "https://identifier.overheid.nl/tooi/id/" ++ pyStr org_type
                ++ "/placeholder"
              let res ← pydantic_check_url uri
              match nameJ with
              | .str s => .ok ⟨res, s⟩
              | _ => .error (.validation "label must be a string"))
          else none
        | none => none
      else none
    | _ => none
  match fromLLM with
  | some r => r
  | none =>
    match hint with
    | some h => .ok ⟨h.tooi_uri.getD placeholderOrgUrl, h.name⟩
    | none => .ok ⟨placeholderOrgUrl, "Onbekende organisatie"⟩

/-- `.upper().replace(" ", "_")` normalisation of category names. -/
def upperReplace (s : String) : String :=
  String.mk ((s.data.map Char.toUpper).map fun c => if c = ' ' then '_' else c)

/-- The raw titel fields: nested shape when `titelcollectie` is a dict
(including the `{}` default used when the key is absent), legacy flat
shape otherwise. -/
def json_titel_fields (fields : List (String × Json)) :
    Json × Option Json × Option Json :=
  match jsonGetD fields "titelcollectie" (.obj []) with
  | .obj tf =>
    (pyOrJson (jsonGet tf "officieleTitel")
       (jsonGetD tf "officiele_titel" (.str "Onbekende titel")),
     pyOrOptJson (jsonGet tf "verkorteTitels") (jsonGet tf "verkorte_titels"),
     pyOrOptJson (jsonGet tf "alternatieveTitels") (jsonGet tf "alternatieve_titels"))
  | _ =>
    (jsonGetD fields "officiele_titel" (.str "Onbekende titel"),
     jsonGet fields "verkorte_titels",
     none)

/-- The raw classification fields: nested shape when
`classificatiecollectie` is a dict (including the `{}` default when
absent), legacy flat shape otherwise. -/
def json_classificatie_fields (fields : List (String × Json)) :
    Json × Option Json × Option Json :=
  match jsonGetD fields "classificatiecollectie" (.obj []) with
  | .obj cf =>
    (jsonGetD cf "informatiecategorieen" (.arr []),
     jsonGet cf "documentsoorten",
     jsonGet cf "trefwoorden")
  | _ =>
    (jsonGetD fields "informatiecategorieen" (.arr []),
     jsonGet fields "documentsoorten",
     jsonGet fields "trefwoorden")

/-- Python slice `x[:2000]` on a JSON value. -/
def pySubscript2000 : Json → Except PipelineError Json
  | .str s => .ok (.str (pySlice s 2000))
  | .arr xs => .ok (.arr (xs.take 2000))
  | _ => .error (.pyError "TypeError: object is not subscriptable")

/-- `cat_data.get("categorie", "")` followed by `.upper()` — requires a
dict entry whose value (if present) is a string. -/
def json_category_name (cat_data : Json) : Except PipelineError String :=
  match cat_data with
  | .obj fs =>
    match jsonGet fs "categorie" with
    | none => .ok ""
    | some (.str s) => .ok s
    | some _ => .error (.pyError "AttributeError: upper")
  | _ => .error (.pyError "AttributeError: get")

/-- The category loop: unknown names are dropped with a warning. -/
def collect_informatiecategorieen (items : List Json) :
    Except PipelineError (List InformatieCategorieMeta) :=
  items.foldlM
    (fun acc cat_data => do
      let raw ← json_category_name cat_data
      match informatieCategorieFromName (upperReplace raw) with
      | some c => pure (acc ++ [⟨c⟩])
      | none => pure acc)
    []

/-- The documentsoorten loop: each entry must be a string
(`soort_name.upper()`), unknown names are dropped. -/
def collect_documentsoorten (items : List Json) :
    Except PipelineError (List DocumentSoortMeta) :=
  items.foldlM
    (fun acc j =>
      match j with
      | .str s =>
        match documentSoortFromName (upperReplace s) with
        | some d => pure (acc ++ [⟨d⟩])
        | none => pure acc
      | _ => .error (.pyError "AttributeError: upper"))
    []

/-- A truthy string field parsed with `fromisoformat`; a `ValueError` is
logged and yields `None`, a non-string raises `TypeError`. -/
def json_datetime_field (v : Option Json) :
    Except PipelineError (Option PyDateTime) :=
  match v with
  | some j =>
    if j.truthy then
      match j with
      | .str s => .ok (datetime_fromisoformat s)
      | _ => .error (.pyError "TypeError: fromisoformat")
    else .ok none
  | none => .ok none

/-- `_extract_geldigheid(llm_data)`. -/
def extract_geldigheid (llm_data : Option Json) :
    Except PipelineError (Option Geldigheid) :=
  match llm_data with
  | some (.obj fs) =>
    if (Json.obj fs).truthy then do
      let begindatum ← json_datetime_field (jsonGet fs "begindatum")
      let einddatum ← json_datetime_field (jsonGet fs "einddatum")
      if begindatum.isSome || einddatum.isSome then
        pure (some ⟨begindatum, einddatum⟩)
      else pure none
    else .ok none
  | _ => .ok none

/-- The explicit LLM-relation-type to `DocumentRelatie` table (with
`HEEFT_BIJLAGE` as the `.get` default). -/
def relatie_type_mapping (rel_type : String) : DocumentRelatie :=
  match rel_type with
  | "BIJLAGE" => .HEEFT_BIJLAGE
  | "HEEFT_BIJLAGE" => .HEEFT_BIJLAGE
  | "IS_BIJLAGE_VAN" => .IS_BIJLAGE_VAN
  | "VERWIJZING" => .HEEFT_BIJLAGE
  | "REACTIE_OP" => .WIJZIGT
  | "VERVANGT" => .VERVANGT
  | "WIJZIGT" => .WIJZIGT
  | _ => .HEEFT_BIJLAGE

/-- `_extract_documentrelaties(llm_data)`: requires a truthy list;
non-dict entries and falsy labels are skipped; an empty result is
`None`. -/
def extract_documentrelaties (llm_data : Option Json) :
    Except PipelineError (Option (List DocumentRelatieItem)) :=
  match llm_data with
  | some (.arr items) =>
    if items.isEmpty then .ok none
    else do
      let relations ← items.foldlM
        (fun (acc : List DocumentRelatieItem) rel_data =>
          match rel_data with
          | .obj fs => do
            let rel_type ← (match jsonGetD fs "type" (.str "") with
              | .str s => Except.ok (pyToUpper s)
              | _ => Except.error (PipelineError.pyError "AttributeError: upper"))
            let labelJ := jsonGetD fs "label" (.str "")
            if labelJ.truthy then do
              let label ← (match labelJ with
                | .str s => Except.ok s
                | _ => Except.error (PipelineError.validation "label must be a string"))
              pure (acc ++ [⟨⟨relatie_type_mapping rel_type⟩, ⟨none, label⟩⟩])
            else pure acc
          | _ => pure acc)
        []
      if relations.isEmpty then pure none else pure (some relations)
  | _ => .ok none

/-- `llm_output.get("taal", "NL").upper()` with `Taal[...]` lookup and
`Taal.NL` fallback on `KeyError`. -/
def json_taal (fields : List (String × Json)) : Except PipelineError TaalMeta := do
  let taal_s ← (match jsonGetD fields "taal" (.str "NL") with
    | .str s => Except.ok (pyToUpper s)
    | _ => Except.error (PipelineError.pyError "AttributeError: upper"))
  match taalFromName taal_s with
  | some t => pure ⟨t⟩
  | none => pure ⟨.NL⟩

/-- `if identifiers and not isinstance(identifiers, list): [identifiers]`. -/
def wrap_non_list (v : Option Json) : Option Json :=
  match v with
  | some j => if j.truthy && !j.isArr then some (.arr [j]) else some j
  | none => none

/-- `naamOpsteller`: a list is joined with `", "` (all elements must be
strings), otherwise the optional-string field validation applies. -/
def extract_naam_opsteller (v : Option Json) :
    Except PipelineError (Option String) :=
  match v with
  | some (.arr xs) => do
    let strs ← xs.mapM fun j =>
      match j with
      | .str s => Except.ok s
      | _ => Except.error (PipelineError.pyError "TypeError: join")
    pure (some (String.intercalate ", " strs))
  | some (.str s) => .ok (some s)
  | some .null => .ok none
  | none => .ok none
  | some _ => .error (.validation "naamOpsteller must be a string")

/-- A truthy `creatiedatum` string parsed with `date.fromisoformat`
(`ValueError` logged, yields `None`; non-string raises `TypeError`). -/
def json_creatiedatum (v : Option Json) : Except PipelineError (Option PyDate) :=
  match v with
  | some j =>
    if j.truthy then
      match j with
      | .str s => .ok (date_fromisoformat s)
      | _ => .error (.pyError "TypeError: fromisoformat")
    else .ok none
  | none => .ok none

/-- `MetadataGenerator._transform_to_diwoo(llm_output, publisher_hint)`;
`now` is the `datetime.now()` used for the synthesised registration
handling event. -/
def transform_to_diwoo (llm_output : Json) (publisher_hint : Option PublisherHint)
    (now : PyDateTime) : Except PipelineError DiWooMetadata :=
  match llm_output with
  | .obj fields => do
    let publisher ← extract_organisation (jsonGet fields "publisher") publisher_hint
    let verantwoordelijke ← extract_organisation (jsonGet fields "verantwoordelijke") none
    let opsteller ← extract_organisation (jsonGet fields "opsteller") none
    let tf := json_titel_fields fields
    let titel_sliced ← pySubscript2000 tf.1
    let officiele_titel ← (match titel_sliced with
      | .str s => Except.ok s
      | _ => Except.error (PipelineError.validation "officieleTitel must be a string"))
    let verkorte_titels ← pydantic_opt_str_list tf.2.1
    let alternatieve_titels ← pydantic_opt_str_list tf.2.2
    let titelcollectie ← mkTitelCollectie officiele_titel verkorte_titels alternatieve_titels
    let cf := json_classificatie_fields fields
    let cat_items ← pyIter cf.1
    let cats ← collect_informatiecategorieen cat_items
    let informatiecategorieen := if cats.isEmpty then
        [(⟨.OVERIGE_BESLUITEN_AS⟩ : InformatieCategorieMeta)]
      else cats
    let documentsoorten ← (match cf.2.1 with
      | some j =>
        if j.truthy then do
          let items ← pyIter j
          let ds ← collect_documentsoorten items
          pure (some ds)
        else pure none
      | none => pure none)
    let documentsoorten_final := match documentsoorten with
      | some ds => if ds.isEmpty then none else some ds
      | none => none
    let trefwoorden ← pydantic_opt_str_list cf.2.2
    let classificatiecollectie : ClassificatieCollectie :=
      { informatiecategorieen := informatiecategorieen,
        documentsoorten := documentsoorten_final,
        trefwoorden := trefwoorden }
    let documenthandelingen : List DocumentHandeling :=
      [{ soort_handeling := ⟨.REGISTRATIE⟩,
         at_time := now,
         was_associated_with := some publisher }]
    let creatiedatum ← json_creatiedatum (jsonGet fields "creatiedatum")
    let geldigheid ← extract_geldigheid (jsonGet fields "geldigheid")
    let documentrelaties ← extract_documentrelaties (jsonGet fields "documentrelaties")
    let language ← json_taal fields
    let identifiers ← pydantic_opt_str_list (wrap_non_list (jsonGet fields "identifiers"))
    let omschrijvingen ← pydantic_opt_str_list (wrap_non_list (jsonGet fields "omschrijvingen"))
    let naam_opsteller ← extract_naam_opsteller (jsonGet fields "naamOpsteller")
    let aggregatiekenmerk ← pydantic_opt_str (jsonGet fields "aggregatiekenmerk")
    .ok
      { identifiers := identifiers,
        publisher := publisher,
        verantwoordelijke := some verantwoordelijke,
        opsteller := some opsteller,
        naam_opsteller := naam_opsteller,
        titelcollectie := titelcollectie,
        omschrijvingen := omschrijvingen,
        classificatiecollectie := classificatiecollectie,
        creatiedatum := creatiedatum,
        geldigheid := geldigheid,
        aggregatiekenmerk := aggregatiekenmerk,
        documenthandelingen := documenthandelingen,
        documentrelaties := documentrelaties,
        language := some language }
  | _ => .error (.pyError "AttributeError: get")

/-- Reasoning entries harvested from a `"reasoning"`-carrying category
entry of the top-level `informatiecategorieen` key
(`_extract_confidence`, second loop).  Python `in` is dict-key,
substring or element membership depending on the runtime type. -/
def confidence_reasoning_step (acc : List FieldConfidence) (cat_data : Json) :
    Except PipelineError (List FieldConfidence) :=
  match cat_data with
  | .obj fs =>
    if (jsonGet fs "reasoning").isSome then do
      let fname := "informatiecategorie_" ++ pyStr (jsonGetD fs "categorie" (.str "unknown"))
      let conf ← (match jsonGetD fs "confidence" (.num (7 / 10)) with
        | .num q => Except.ok q
        | _ => Except.error (PipelineError.validation "confidence must be a number"))
      let reasoning ← (match jsonGet fs "reasoning" with
        | some (.str s) => Except.ok (some s)
        | some .null => Except.ok none
        | _ => Except.error (PipelineError.validation "reasoning must be a string"))
      let fc ← mkFieldConfidence fname conf reasoning
      pure (acc ++ [fc])
    else pure acc
  | .str s =>
    if charsContainSub "reasoning".data s.data then
      .error (.pyError "AttributeError: get")
    else pure acc
  | .arr xs =>
    if xs.any (fun j => match j with | .str s => s = "reasoning" | _ => false) then
      .error (.pyError "AttributeError: get")
    else pure acc
  | _ => .error (.pyError "TypeError: argument is not iterable")

/-- The reasoning loop over `llm_output.get("informatiecategorieen", [])`
with Python iteration semantics. -/
def confidence_reasoning_fields (catsJ : Json) :
    Except PipelineError (List FieldConfidence) :=
  match catsJ with
  | .arr xs => xs.foldlM confidence_reasoning_step []
  | .str _ => .ok []
  | .obj fs =>
    if fs.any (fun kv => charsContainSub "reasoning".data kv.1.data) then
      .error (.pyError "AttributeError: get")
    else .ok []
  | _ => .error (.pyError "TypeError: object is not iterable")

/-- `MetadataGenerator._extract_confidence(llm_output)`. -/
def extract_confidence (llm_output : Json) :
    Except PipelineError ConfidenceScores :=
  match llm_output with
  | .obj fields => do
    let raw_scores ← (match jsonGet fields "confidence_scores" with
      | none => Except.ok ([] : List (String × Json))
      | some (.obj fs) => Except.ok fs
      | some _ => Except.error (PipelineError.pyError "AttributeError: get"))
    let overallJ := jsonGetD raw_scores "overall" (.num (7 / 10))
    let numFields ← raw_scores.foldlM
      (fun (acc : List FieldConfidence) kv =>
        if kv.1 ≠ "overall" then
          match kv.2 with
          | .num q => do
            let fc ← mkFieldConfidence kv.1 q none
            pure (acc ++ [fc])
          | .bool b => do
            let fc ← mkFieldConfidence kv.1 (if b then 1 else 0) none
            pure (acc ++ [fc])
          | _ => pure acc
        else pure acc)
      []
    let reasonFields ← confidence_reasoning_fields
      (jsonGetD fields "informatiecategorieen" (.arr []))
    let overall ← (match overallJ with
      | .num q =>
        if 0 ≤ q && q ≤ 1 then Except.ok q
        else Except.error (PipelineError.validation "overall out of range")
      | _ => Except.error (PipelineError.validation "overall must be a number"))
    .ok ⟨overall, numFields ++ reasonFields⟩
  | _ => .error (.pyError "AttributeError: get")

/-! ## XML-path transformer (`services/xml_parser.py`)

The element tree produced by `lxml.etree.fromstring` is modelled as
`XmlElem`; the parser itself (an external C library) is an abstract
parameter `String → Except String XmlElem`.  Element tags carry the
`diwoo:`-qualified names used by the source's namespace-aware `find`
calls. -/

/-- A parsed XML element. -/
inductive XmlElem where
  | mk (tag : String) (attrs : List (String × String))
       (text : Option String) (children : List XmlElem)

/-- Element tag. -/
def XmlElem.tag : XmlElem → String
  | .mk t _ _ _ => t

/-- Element attributes. -/
def XmlElem.attrs : XmlElem → List (String × String)
  | .mk _ a _ _ => a

/-- Element text. -/
def XmlElem.text : XmlElem → Option String
  | .mk _ _ t _ => t

/-- Element children. -/
def XmlElem.children : XmlElem → List XmlElem
  | .mk _ _ _ c => c

/-- `_find(parent, path)` — first child with the given qualified tag. -/
def xmlFind (parent : XmlElem) (tag : String) : Option XmlElem :=
  parent.children.find? fun e => e.tag = tag

/-- `_findall(parent, path)`. -/
def xmlFindall (parent : XmlElem) (tag : String) : List XmlElem :=
  parent.children.filter fun e => e.tag = tag

/-- `_get_text(element)`: `text.strip() if text else None`. -/
def xmlGetText (e : Option XmlElem) : Option String :=
  match e with
  | none => none
  | some el =>
    match el.text with
    | none => none
    | some t => if t = "" then none else some (pyStrip t)

/-- `_get_attr(element, attr)`. -/
def xmlGetAttr (e : Option XmlElem) (attr : String) : Option String :=
  match e with
  | none => none
  | some el => (el.attrs.find? fun kv => kv.1 = attr).map (·.2)

/-- `x or default` on an optional string with Python truthiness. -/
def strOr (o : Option String) (d : String) : String :=
  match o with
  | some s => if s = "" then d else s
  | none => d

/-- `_parse_date(value)`: falsy yields `None`; the first ten characters
are parsed, a `ValueError` is logged and yields `None`. -/
def xml_parse_date (value : Option String) : Option PyDate :=
  match value with
  | none => none
  | some s => if s = "" then none else date_fromisoformat (pySlice s 10)

/-- `_parse_datetime(value)`: falsy yields `None`; `Z` is widened to
`+00:00`; a `ValueError` is logged and yields `None`. -/
def xml_parse_datetime (value : Option String) : Option PyDateTime :=
  match value with
  | none => none
  | some s => if s = "" then none else datetime_fromisoformat (pyReplaceZ s)

/-- `_parse_organisation(elem)`: missing element or missing/falsy
`resource` attribute fall back to the fixed placeholder; a present
resource is validated as an `HttpUrl` (pydantic failure propagates). -/
def xml_parse_organisation (elem : Option XmlElem) :
    Except PipelineError Organisatie :=
  match elem with
  | none => .ok ⟨placeholderOrgUrl, "Onbekende organisatie"⟩
  | some el =>
    let label := strOr (xmlGetText (some el)) "Onbekende organisatie"
    match xmlGetAttr (some el) "resource" with
    | some r =>
      if r = "" then .ok ⟨placeholderOrgUrl, label⟩
      else do
        let u ← pydantic_check_url r
        pure ⟨u, label⟩
    | none => .ok ⟨placeholderOrgUrl, label⟩

/-- `_parse_titelcollectie(elem)` (title always non-empty by fallback,
hard-sliced to 2000 characters, then pydantic-validated). -/
def xml_parse_titelcollectie (elem : Option XmlElem) :
    Except PipelineError TitelCollectie :=
  match elem with
  | none => mkTitelCollectie "Onbekende titel" none none
  | some el =>
    let officiele_titel := strOr (xmlGetText (xmlFind el "diwoo:officieleTitel")) "Onbekende titel"
    let verkorte_titels := (xmlFindall el "diwoo:verkorteTitel").filterMap
      (fun e => match xmlGetText (some e) with
        | some t => if t = "" then none else some t
        | none => none)
    let alternatieve_titels := (xmlFindall el "diwoo:alternatieveTitel").filterMap
      (fun e => match xmlGetText (some e) with
        | some t => if t = "" then none else some t
        | none => none)
    mkTitelCollectie (pySlice officiele_titel 2000)
      (if verkorte_titels.isEmpty then none else some verkorte_titels)
      (if alternatieve_titels.isEmpty then none else some alternatieve_titels)

/-- `_parse_classificatiecollectie(elem)`: category/doc-type codes are
extracted from `resource` URIs, unknown codes dropped; an empty category
list is replaced by the `OVERIGE_BESLUITEN_AS` default. -/
def xml_parse_classificatiecollectie (elem : Option XmlElem) : ClassificatieCollectie :=
  match elem with
  | none => { informatiecategorieen := [⟨.OVERIGE_BESLUITEN_AS⟩] }
  | some el =>
    let informatiecategorieen :=
      match xmlFind el "diwoo:informatiecategorieen" with
      | none => []
      | some info_elem =>
        (xmlFindall info_elem "diwoo:informatiecategorie").filterMap fun cat_elem =>
          match extract_category_code (xmlGetAttr (some cat_elem) "resource") with
          | some code =>
            (informatieCategorieFromCode code).map
              (fun c => (⟨c⟩ : InformatieCategorieMeta))
          | none => none
    let informatiecategorieen' :=
      if informatiecategorieen.isEmpty then
        [(⟨.OVERIGE_BESLUITEN_AS⟩ : InformatieCategorieMeta)]
      else informatiecategorieen
    let documentsoorten :=
      match xmlFind el "diwoo:documentsoorten" with
      | none => none
      | some soorten_elem =>
        some ((xmlFindall soorten_elem "diwoo:documentsoort").filterMap fun soort_elem =>
          match extract_category_code (xmlGetAttr (some soort_elem) "resource") with
          | some code =>
            (documentSoortFromCode code).map (fun d => (⟨d⟩ : DocumentSoortMeta))
          | none => none)
    let documentsoorten_final := match documentsoorten with
      | some ds => if ds.isEmpty then none else some ds
      | none => none
    let trefwoorden :=
      match xmlFind el "diwoo:trefwoorden" with
      | none => none
      | some tref_elem =>
        some ((xmlFindall tref_elem "diwoo:trefwoord").filterMap fun e =>
          match xmlGetText (some e) with
          | some t => if t = "" then none else some t
          | none => none)
    let trefwoorden_final := match trefwoorden with
      | some ts => if ts.isEmpty then none else some ts
      | none => none
    { informatiecategorieen := informatiecategorieen',
      documentsoorten := documentsoorten_final,
      trefwoorden := trefwoorden_final }

/-- `_parse_geldigheid(elem)`. -/
def xml_parse_geldigheid (elem : Option XmlElem) : Option Geldigheid :=
  match elem with
  | none => none
  | some el =>
    let begindatum := xml_parse_datetime (xmlGetText (xmlFind el "diwoo:begindatum"))
    let einddatum := xml_parse_datetime (xmlGetText (xmlFind el "diwoo:einddatum"))
    if begindatum.isSome || einddatum.isSome then some ⟨begindatum, einddatum⟩
    else none

/-- `_parse_language(elem)`: defaults to Dutch throughout. -/
def xml_parse_language (elem : Option XmlElem) : TaalMeta :=
  match elem with
  | none => ⟨.NL⟩
  | some el =>
    match xmlGetAttr (some el) "resource" with
    | some r =>
      match extract_category_code (some r) with
      | some code =>
        match taalFromCode code with
        | some t => ⟨t⟩
        | none => ⟨.NL⟩
      | none => ⟨.NL⟩
    | none => ⟨.NL⟩

/-- One `diwoo:documenthandeling` element: handling type from the
`resource` code with `REGISTRATIE` default (unknown codes suppressed),
timestamp from `atTime` with `datetime.now()` default, associated
organisation parsed like any organisation. -/
def xml_parse_documenthandeling (handeling_elem : XmlElem) (now : PyDateTime) :
    Except PipelineError DocumentHandeling := do
  let soort_elem := xmlFind handeling_elem "diwoo:soortHandeling"
  let at_time_str := xmlGetText (xmlFind handeling_elem "diwoo:atTime")
  let associated_with ← xml_parse_organisation (xmlFind handeling_elem "diwoo:wasAssociatedWith")
  let soort_handeling : SoortHandelingMeta :=
    match soort_elem with
    | none => ⟨.REGISTRATIE⟩
    | some se =>
      match extract_category_code (xmlGetAttr (some se) "resource") with
      | some code =>
        match soortHandelingFromCode code with
        | some sh => ⟨sh⟩
        | none => ⟨.REGISTRATIE⟩
      | none => ⟨.REGISTRATIE⟩
  let at_time := (xml_parse_datetime at_time_str).getD now
  pure { soort_handeling := soort_handeling,
         at_time := at_time,
         was_associated_with := some associated_with }

/-- `_parse_documenthandelingen(elem, publisher)`: when no handling was
parsed, one default `registratie` event attributed to the publisher is
synthesised. -/
def xml_parse_documenthandelingen (elem : Option XmlElem) (publisher : Organisatie)
    (now : PyDateTime) : Except PipelineError (List DocumentHandeling) := do
  let handelingen ← (match elem with
    | none => pure ([] : List DocumentHandeling)
    | some el =>
      (xmlFindall el "diwoo:documenthandeling").mapM
        (fun h => xml_parse_documenthandeling h now))
  if handelingen.isEmpty then
    pure [{ soort_handeling := ⟨.REGISTRATIE⟩,
            at_time := now,
            was_associated_with := some publisher }]
  else
    pure handelingen

/-- `_parse_documentrelaties(elem)`. -/
def xml_parse_documentrelaties (elem : Option XmlElem) :
    Option (List DocumentRelatieItem) :=
  match elem with
  | none => none
  | some el =>
    let relaties := (xmlFindall el "diwoo:documentrelatie").filterMap fun rel_elem =>
      match xmlFind rel_elem "diwoo:role", xmlFind rel_elem "diwoo:relation" with
      | some role_elem, some relation_elem =>
        let relatie_enum :=
          match extract_category_code (xmlGetAttr (some role_elem) "resource") with
          | some code =>
            match documentRelatieFromCode code with
            | some r => r
            | none => DocumentRelatie.HEEFT_BIJLAGE
          | none => DocumentRelatie.HEEFT_BIJLAGE
        let label := strOr (xmlGetText (some relation_elem)) "Onbekend document"
        some ⟨⟨relatie_enum⟩, ⟨xmlGetAttr (some relation_elem) "resource", label⟩⟩
      | _, _ => none
    if relaties.isEmpty then none else some relaties

/-- `clean_xml_response(raw_xml)`: strip markdown code fences, then cut
out the span from the first `<diwoo:Document` to the end of the last
`</diwoo:Document>`, preceded by the declaration found directly before
the document element (else a default declaration); with no document
element the cleaned text is stripped.  The `re.sub`/`re.search` calls
are modelled directly on char lists. -/
def removeTokenAndSpace (token : List Char) : List Char → List Char
  | [] => []
  | c :: rest =>
    if token.isEmpty then c :: rest
    else if charsStartWith token (c :: rest) then
      removeTokenAndSpace token
        (((c :: rest).drop token.length).dropWhile Char.isWhitespace)
    else c :: removeTokenAndSpace token rest
termination_by l => l.length
decreasing_by
  · have htok : 0 < token.length := by
      cases token with
      | nil => simp_all
      | cons t ts => simp
    have h1 : (((c :: rest).drop token.length).dropWhile Char.isWhitespace).length ≤
        ((c :: rest).drop token.length).length :=
      ((List.dropWhile_suffix _).sublist).length_le
    have h2 : ((c :: rest).drop token.length).length = (c :: rest).length - token.length :=
      List.length_drop _ _
    simp only [List.length_cons] at *
    omega
  · simp +arith

/-- Index (from the front) of the first occurrence of a token, if any. -/
def firstIndexOfToken (token : List Char) : List Char → Option Nat
  | [] => if token.isEmpty then some 0 else none
  | c :: rest =>
    if charsStartWith token (c :: rest) then some 0
    else (firstIndexOfToken token rest).map (· + 1)

/-- Index just after the last occurrence of a token at or beyond `start`. -/
def lastEndOfTokenFrom (token chars : List Char) (start : Nat) : Option Nat :=
  let n := chars.length
  (List.range (n + 1)).foldl
    (fun acc i =>
      if start ≤ i && charsStartWith token (chars.drop i) then some (i + token.length)
      else acc)
    none

/-- The declaration segment `<?xml ... ?>` whose closing `?>` is
followed by only whitespace up to position `docStart` (the lazy
`(<\?xml.*?\?>)?` group of the cleaning regex). -/
def declarationBefore (chars : List Char) (docStart : Nat) : Option (List Char) :=
  match firstIndexOfToken "<?xml".data chars with
  | none => none
  | some p =>
    if docStart ≤ p then none
    else
      match (List.range (docStart + 1)).find?
          (fun q => p + 5 + 2 ≤ q && charsStartWith "?>".data (chars.drop (q - 2)) &&
            ((chars.drop q).take (docStart - q)).all Char.isWhitespace) with
      | some q => some ((chars.drop p).take (q - p))
      | none => none

/-- `clean_xml_response`. -/
def clean_xml_response (raw_xml : String) : String :=
  let cleaned := removeTokenAndSpace "```".data
    (removeTokenAndSpace "```xml".data raw_xml.data)
  match firstIndexOfToken "<diwoo:Document".data cleaned with
  | some i =>
    match lastEndOfTokenFrom "</diwoo:Document>".data cleaned i with
    | some j =>
      let body := (cleaned.drop i).take (j - i)
      let declaration := match declarationBefore cleaned i with
        | some d => String.mk d
        | none => "<?xml version=\"1.0\" encoding=\"UTF-8\"?>"
      declaration ++ "\n" ++ String.mk body
    | none => pyStrip (String.mk cleaned)
  | none => pyStrip (String.mk cleaned)

/-- `parse_xml_to_diwoo(xml_string, validate)`.  `fromstring` is the
abstract lxml parser applied to the cleaned text (a syntax error is
wrapped in `XMLParseError`); `xsd` is the optionally loaded schema
(`load_xsd_schema` may yield `None`, skipping validation). -/
def parse_xml_to_diwoo (fromstring : String → Except String XmlElem)
    (xsd : Option (XmlElem → Bool)) (xml_string : String) (validate : Bool)
    (now : PyDateTime) : Except PipelineError DiWooMetadata := do
  let cleaned_xml := clean_xml_response xml_string
  let root ← (match fromstring cleaned_xml with
    | .ok r => Except.ok r
    | .error e => Except.error (PipelineError.xmlParse ("Invalid XML: " ++ e)))
  let _ ← (if validate then
      match xsd with
      | some schema =>
        if schema root then Except.ok ()
        else Except.error (PipelineError.xmlValidation "XSD validation failed")
      | none => Except.ok ()
    else Except.ok ())
  let diwoo ← (match xmlFind root "diwoo:DiWoo" with
    | some d => Except.ok d
    | none => Except.error (PipelineError.xmlParse "Missing diwoo:DiWoo element"))
  let identifiers := match xmlFind diwoo "diwoo:identifiers" with
    | none => none
    | some ie => some ((xmlFindall ie "diwoo:identifier").filterMap fun e =>
        match xmlGetText (some e) with
        | some t => if t = "" then none else some t
        | none => none)
  let publisher ← xml_parse_organisation (xmlFind diwoo "diwoo:publisher")
  let verantwoordelijke ← xml_parse_organisation (xmlFind diwoo "diwoo:verantwoordelijke")
  let opsteller ← xml_parse_organisation (xmlFind diwoo "diwoo:opsteller")
  let naam_opsteller := xmlGetText (xmlFind diwoo "diwoo:naamOpsteller")
  let titelcollectie ← xml_parse_titelcollectie (xmlFind diwoo "diwoo:titelcollectie")
  let omschrijvingen := match xmlFind diwoo "diwoo:omschrijvingen" with
    | none => none
    | some oe => some ((xmlFindall oe "diwoo:omschrijving").filterMap fun e =>
        match xmlGetText (some e) with
        | some t => if t = "" then none else some t
        | none => none)
  let classificatiecollectie :=
    xml_parse_classificatiecollectie (xmlFind diwoo "diwoo:classificatiecollectie")
  let creatiedatum := xml_parse_date (xmlGetText (xmlFind diwoo "diwoo:creatiedatum"))
  let geldigheid := xml_parse_geldigheid (xmlFind diwoo "diwoo:geldigheid")
  let language := xml_parse_language (xmlFind diwoo "diwoo:language")
  let aggregatiekenmerk := xmlGetText (xmlFind diwoo "diwoo:aggregatiekenmerk")
  let documenthandelingen ← xml_parse_documenthandelingen
    (xmlFind diwoo "diwoo:documenthandelingen") publisher now
  let documentrelaties := xml_parse_documentrelaties (xmlFind diwoo "diwoo:documentrelaties")
  .ok
    { identifiers := identifiers,
      publisher := publisher,
      verantwoordelijke := some verantwoordelijke,
      opsteller := some opsteller,
      naam_opsteller := naam_opsteller,
      titelcollectie := titelcollectie,
      omschrijvingen := omschrijvingen,
      classificatiecollectie := classificatiecollectie,
      creatiedatum := creatiedatum,
      geldigheid := geldigheid,
      aggregatiekenmerk := aggregatiekenmerk,
      documenthandelingen := documenthandelingen,
      documentrelaties := documentrelaties,
      language := some language }

/-! ## Provider client, Anthropic-style path (`services/openrouter.py`) -/

/-- `ChatMessage`. -/
structure ChatMessage where
  role : String
  content : String
deriving DecidableEq, Repr

/-- `ChatCompletionChoice`. -/
structure ChatCompletionChoice where
  index : Nat
  message : ChatMessage
  finish_reason : Option String := none
deriving DecidableEq, Repr

/-- `ChatCompletionUsage`. -/
structure ChatCompletionUsage where
  prompt_tokens : Nat
  completion_tokens : Nat
  total_tokens : Nat
deriving DecidableEq, Repr

/-- `ChatCompletionResponse`. -/
structure ChatCompletionResponse where
  id : String
  model : String
  choices : List ChatCompletionChoice
  usage : Option ChatCompletionUsage := none
deriving DecidableEq, Repr

/-- The JSON body `_anthropic_chat_completion` posts to `/v1/messages`
(`system` is a top-level field, set only when truthy). -/
structure AnthropicPayload where
  model : String
  messages : List ChatMessage
  temperature : ℚ
  max_tokens : Nat
  system : Option String := none
deriving DecidableEq, Repr

/-- The payload construction inside `_anthropic_chat_completion`: the
loop keeps the content of the last system message seen and collects the
non-system messages in order; `payload["system"]` is set only when the
collected text is truthy (non-empty). -/
def anthropic_build_payload (messages : List ChatMessage) (model : String)
    (temperature : ℚ) (max_tokens : Nat) : AnthropicPayload :=
  let system_text := messages.foldl
    (fun acc m => if m.role = "system" then some m.content else acc)
    (none : Option String)
  let user_messages := messages.filter fun m => m.role ≠ "system"
  { model := model,
    messages := user_messages,
    temperature := temperature,
    max_tokens := max_tokens,
    system := match system_text with
      | some s => if s = "" then none else some s
      | none => none }

/-- A typed content block of an Anthropic Messages API response. -/
structure AnthropicContentBlock where
  type : String
  text : String
deriving DecidableEq, Repr

/-- Anthropic usage counters. -/
structure AnthropicUsage where
  input_tokens : Nat
  output_tokens : Nat
deriving DecidableEq, Repr

/-- The fields of an Anthropic Messages API response body that
`_convert_anthropic_response` reads. -/
structure AnthropicResponseData where
  id : String := ""
  model : String := ""
  content : List AnthropicContentBlock := []
  stop_reason : Option String := none
  usage : Option AnthropicUsage := none
deriving DecidableEq, Repr

/-- `_convert_anthropic_response(data)`: text blocks joined with
newlines; `input_tokens + output_tokens` summed into `total_tokens`. -/
def convert_anthropic_response (data : AnthropicResponseData) :
    ChatCompletionResponse :=
  let text_parts := (data.content.filter fun b => b.type = "text").map fun b => b.text
  let content := String.intercalate "\n" text_parts
  { id := data.id,
    model := data.model,
    choices := [{ index := 0,
                  message := ⟨"assistant", content⟩,
                  finish_reason := data.stop_reason }],
    usage := data.usage.map fun u =>
      { prompt_tokens := u.input_tokens,
        completion_tokens := u.output_tokens,
        total_tokens := u.input_tokens + u.output_tokens } }

/-! ## Generation orchestrator (`MetadataGenerator.generate`)

The environment bundles what the orchestrator obtains from outside the
transformation logic: the request id, the clock, the elapsed time, the
outcome of the provider call (a raw content string, or the message of
whatever exception the call raised — `RetryExhaustedError`, HTTP errors,
`ValueError`, ... — all of which the source catches), and the external
parsers. -/

/-- Orchestrator environment. -/
structure GenEnv where
  request_id : String
  now : PyDateTime
  elapsed_ms : Nat
  client_result : Except String String
  json_loads : String → Except String Json
  xml_fromstring : String → Except String XmlElem
  xsd_schema : Option (XmlElem → Bool) := none

/-- How `generate`'s `except` clauses render each exception class:
`XMLParseError`/`XMLValidationError` share one handler, pydantic
`ValidationError` has its own, and the final generic handler uses
`str(e)` verbatim.  `json.JSONDecodeError` is handled separately at the
`json.loads` call site. -/
def render_pipeline_error : PipelineError → String
  | .xmlParse m => "LLM returned invalid XML: " ++ m
  | .xmlValidation m => "LLM returned invalid XML: " ++ m
  | .validation m => "Generated metadata validation failed: " ++ m
  | .pyError m => m

/-- `MetadataGenerator.generate(request, output_mode, validate_xml)`:
every failure anywhere in the pipeline is converted into a
`success = false` response; the function is total (no exception escapes). -/
def generate (env : GenEnv) (request : MetadataGenerationRequest)
    (output_mode : OutputMode) (validate_xml : Bool) :
    MetadataGenerationResponse :=
  match env.client_result with
  | .error e =>
    { success := false, request_id := env.request_id, error := some e }
  | .ok raw_content =>
    match output_mode with
    | .xml =>
      match parse_xml_to_diwoo env.xml_fromstring env.xsd_schema raw_content
          validate_xml env.now with
      | .error e =>
        { success := false, request_id := env.request_id,
          error := some (render_pipeline_error e) }
      | .ok metadata =>
        { success := true, request_id := env.request_id,
          suggestion := some
            { metadata := metadata,
              confidence := ⟨8 / 10, []⟩,
              model_used := request.model,
              processing_time_ms := env.elapsed_ms } }
    | .json =>
      match env.json_loads raw_content with
      | .error e =>
        { success := false, request_id := env.request_id,
          error := some ("LLM returned invalid JSON: " ++ e) }
      | .ok llm_output =>
        match transform_to_diwoo llm_output request.publisher_hint env.now with
        | .error e =>
          { success := false, request_id := env.request_id,
            error := some (render_pipeline_error e) }
        | .ok metadata =>
          match (if request.include_confidence then extract_confidence llm_output
                 else .ok ⟨7 / 10, []⟩) with
          | .error e =>
            { success := false, request_id := env.request_id,
              error := some (render_pipeline_error e) }
          | .ok confidence =>
            { success := true, request_id := env.request_id,
              suggestion := some
                { metadata := metadata,
                  confidence := confidence,
                  model_used := request.model,
                  processing_time_ms := env.elapsed_ms } }

/-! ## Concrete sample inputs used by the closed theorems -/

/-- A junk record used only as the `getD` default when projecting out of
a transformation known to succeed. -/
def mdFallback : DiWooMetadata :=
  { publisher := ⟨placeholderOrgUrl, "fallback"⟩,
    titelcollectie := ⟨"fallback", none, none⟩,
    classificatiecollectie := { informatiecategorieen := [⟨.OVERIGE_BESLUITEN_AS⟩] },
    documenthandelingen := [] }

/-- A sample clock value. -/
def nowSample : PyDateTime := ⟨"2024-05-01T10:00:00"⟩

/-- A nested-shape LLM JSON output. -/
def jInvariantSample : Json :=
  .obj [("titelcollectie", .obj [("officieleTitel", .str "Besluit over subsidie")]),
        ("classificatiecollectie",
         .obj [("informatiecategorieen", .arr [.obj [("categorie", .str "CONVENANTEN")]])])]

/-- A minimal parsed XML document: a `diwoo:Document` root holding an
empty `diwoo:DiWoo` element. -/
def xmlInvariantSample : XmlElem :=
  .mk "diwoo:Document" [] none [.mk "diwoo:DiWoo" [] none []]

/-- Scenario A input: flat-key LLM JSON with one ADVIEZEN category and
no publisher hint. -/
def jScenarioA : Json :=
  .obj [("officiele_titel", .str "Test"),
        ("informatiecategorieen", .arr [.obj [("categorie", .str "ADVIEZEN")]])]

/-- Flat-key-only fields (no nested `titelcollectie` or
`classificatiecollectie` keys). -/
def flatFieldsSample : List (String × Json) :=
  [("officiele_titel", .str "Platte titel"),
   ("informatiecategorieen", .arr [.obj [("categorie", .str "ADVIEZEN")]]),
   ("trefwoorden", .arr [.str "subsidie"])]

/-- A sample generation request. -/
def reqSample : MetadataGenerationRequest :=
  { document_text := "Dit is een voorbeelddocument voor metadata.",
    model := "mistralai/mistral-large-2512" }

/-- An orchestrator environment whose XML parser rejects its input. -/
def envXmlError : GenEnv :=
  { request_id := "req-xml-err",
    now := nowSample,
    elapsed_ms := 42,
    client_result := .ok "<diwoo:Document><niet-gesloten",
    json_loads := fun _ => .error "ongebruikt",
    xml_fromstring := fun _ => .error "unclosed token: line 1, column 0" }

/-- A sample Anthropic message list with one system and one user
message. -/
def anthMsgsSample : List ChatMessage :=
  [⟨"system", "Je bent een metadata-expert."⟩, ⟨"user", "Analyseer dit document."⟩]

/-- A sample Anthropic Messages API response body. -/
def anthRespSample : AnthropicResponseData :=
  { id := "msg_01", model := "claude-x",
    content := [⟨"text", "Hallo"⟩, ⟨"tool_use", ""⟩, ⟨"text", "wereld"⟩],
    stop_reason := some "end_turn",
    usage := some ⟨10, 5⟩ }

/-- C9: every taxonomy member's `tooi_uri` is the fixed base concatenated
with its code, and `_extract_category_code` applied to that URI returns
exactly the original code. -/
theorem taxonomy_uri_code_roundtrip :
    (∀ c : InformatieCategorie,
       c.tooi_uri = tooiKernBase ++ c.value ∧
       extract_category_code (some c.tooi_uri) = some c.value) ∧
    (∀ c : DocumentSoort,
       c.tooi_uri = tooiKernBase ++ c.value ∧
       extract_category_code (some c.tooi_uri) = some c.value) ∧
    (∀ c : SoortHandeling,
       c.tooi_uri = tooiKernBase ++ c.value ∧
       extract_category_code (some c.tooi_uri) = some c.value) ∧
    (∀ c : Taal,
       c.tooi_uri = tooiKernBase ++ c.value ∧
       extract_category_code (some c.tooi_uri) = some c.value) ∧
    (∀ c : DocumentRelatie,
       c.tooi_uri = tooiKernBase ++ c.value ∧
       extract_category_code (some c.tooi_uri) = some c.value) := by
  refine ⟨?_, ?_, ?_, ?_, ?_⟩ <;> intro c <;> cases c <;> exact ⟨rfl, by decide⟩

/-- Peeling one step off the delay schedule. -/
theorem retry_schedule_cons (cfg : RetryConfig) (start k : Nat) :
    (List.range (k + 1)).map (fun i => retry_delay cfg (start + i)) =
      retry_delay cfg start ::
        (List.range k).map (fun i => retry_delay cfg (start + 1 + i)) := by
  rw [List.range_succ_eq_map]
  simp only [List.map_cons, List.map_map]
  refine congrArg₂ List.cons (by simp) ?_
  apply List.map_congr_left
  intro i _
  simp only [Function.comp_apply]
  congr 1
  omega

/-- The delay trace of the loop is always an initial run of the
per-attempt delay schedule. -/
theorem with_retry_go_trace (cfg : RetryConfig) (f : Nat → CallOutcome α) :
    ∀ r attempt, ∃ k,
      (with_retry_go cfg f attempt r).2 =
        (List.range k).map (fun i => retry_delay cfg (attempt + i)) := by
  intro r
  induction r with
  | zero => intro attempt; exact ⟨0, rfl⟩
  | succ r ih =>
    intro attempt
    cases hf : f attempt with
    | ok v => exact ⟨0, by simp [with_retry_go, hf]⟩
    | httpStatusError c =>
      by_cases hc : c ∈ cfg.retryable_status_codes
      · by_cases hr : r = 0
        · subst hr; exact ⟨0, by simp [with_retry_go, hf, hc]⟩
        · obtain ⟨k, hk⟩ := ih (attempt + 1)
          refine ⟨k + 1, ?_⟩
          simp only [with_retry_go, hf, if_pos hc, if_neg hr]
          show retry_delay cfg attempt :: (with_retry_go cfg f (attempt + 1) r).2 =
            (List.range (k + 1)).map (fun i => retry_delay cfg (attempt + i))
          rw [retry_schedule_cons, hk]
      · exact ⟨0, by simp [with_retry_go, hf, hc]⟩
    | requestError m =>
      by_cases hr : r = 0
      · subst hr; exact ⟨0, by simp [with_retry_go, hf]⟩
      · obtain ⟨k, hk⟩ := ih (attempt + 1)
        refine ⟨k + 1, ?_⟩
        simp only [with_retry_go, hf, if_neg hr]
        show retry_delay cfg attempt :: (with_retry_go cfg f (attempt + 1) r).2 =
          (List.range (k + 1)).map (fun i => retry_delay cfg (attempt + i))
        rw [retry_schedule_cons, hk]

/-- If every attempt in the window fails retryably, the loop exhausts all
attempts, sleeping the full delay schedule and raising the exhaustion
error from the last attempt's exception. -/
theorem with_retry_go_all_retryable (cfg : RetryConfig) (f : Nat → CallOutcome α) :
    ∀ r attempt, 1 ≤ r →
      (∀ i, attempt ≤ i → i < attempt + r → (f i).isRetryableFail cfg = true) →
      with_retry_go cfg f attempt r =
        (.exhausted ((f (attempt + r - 1)).failure),
         (List.range (r - 1)).map (fun i => retry_delay cfg (attempt + i))) := by
  intro r
  induction r with
  | zero => intro attempt h; omega
  | succ r ih =>
    intro attempt _ hall
    have hhere : (f attempt).isRetryableFail cfg = true := hall attempt le_rfl (by omega)
    cases hf : f attempt with
    | ok v =>
      rw [hf] at hhere
      simp [CallOutcome.isRetryableFail] at hhere
    | httpStatusError c =>
      rw [hf] at hhere
      have hc : c ∈ cfg.retryable_status_codes := by
        simpa [CallOutcome.isRetryableFail] using hhere
      by_cases hr : r = 0
      · subst hr
        simp only [with_retry_go, hf, if_pos hc, if_pos rfl]
        rw [show attempt + (0 + 1) - 1 = attempt from by omega, hf]
        simp [CallOutcome.failure]
      · have ihh := ih (attempt + 1) (by omega)
          (fun i h1 h2 => hall i (by omega) (by omega))
        simp only [with_retry_go, hf, if_pos hc, if_neg hr]
        show ((with_retry_go cfg f (attempt + 1) r).1,
            retry_delay cfg attempt :: (with_retry_go cfg f (attempt + 1) r).2) = _
        rw [ihh]
        refine congrArg₂ Prod.mk ?_ ?_
        · rw [show attempt + 1 + r - 1 = attempt + (r + 1) - 1 from by omega]
        · rw [show r + 1 - 1 = (r - 1) + 1 from by omega, retry_schedule_cons]
    | requestError m =>
      by_cases hr : r = 0
      · subst hr
        simp only [with_retry_go, hf, if_pos rfl]
        rw [show attempt + (0 + 1) - 1 = attempt from by omega, hf]
        simp [CallOutcome.failure]
      · have ihh := ih (attempt + 1) (by omega)
          (fun i h1 h2 => hall i (by omega) (by omega))
        simp only [with_retry_go, hf, if_neg hr]
        show ((with_retry_go cfg f (attempt + 1) r).1,
            retry_delay cfg attempt :: (with_retry_go cfg f (attempt + 1) r).2) = _
        rw [ihh]
        refine congrArg₂ Prod.mk ?_ ?_
        · rw [show attempt + 1 + r - 1 = attempt + (r + 1) - 1 from by omega]
        · rw [show r + 1 - 1 = (r - 1) + 1 from by omega, retry_schedule_cons]

/-- Positional characterisation of a mapped range. -/
theorem range_map_get_eq {β : Type} :
    ∀ (k : Nat) (g : Nat → β) (j : Nat) (d : β),
      ((List.range k).map g).get? j = some d → d = g j := by
  intro k
  induction k with
  | zero => intro g j d h; simp at h
  | succ k ih =>
    intro g j d h
    rw [List.range_succ_eq_map, List.map_cons, List.map_map] at h
    cases j with
    | zero =>
      simp only [List.get?_cons_zero, Option.some.injEq] at h
      exact h.symm
    | succ j =>
      simp only [List.get?_cons_succ] at h
      have := ih (g ∘ Nat.succ) j d h
      simpa using this

/-- C5: with the default retryable set, an HTTP status error on the first
attempt is re-raised immediately (one attempt, no sleep) when its code is
outside `{429, 500, 502, 503, 504}`; when the code is in the set and
budget remains, the loop sleeps and proceeds to attempt 2; and request
(network/connection) errors are always retried up to the attempt budget,
ending in exhaustion after the final attempt. -/
theorem with_retry_retryable_classification (cfg : RetryConfig)
    (f g : Nat → CallOutcome α) (c : Nat) (m : String)
    (hcodes : cfg.retryable_status_codes = [429, 500, 502, 503, 504])
    (hmax : 1 ≤ cfg.max_attempts) :
    (f 1 = .httpStatusError c → c ∉ ([429, 500, 502, 503, 504] : List Nat) →
       with_retry cfg f = (.raised c 1, [])) ∧
    (f 1 = .httpStatusError c → c ∈ ([429, 500, 502, 503, 504] : List Nat) →
       2 ≤ cfg.max_attempts →
       with_retry cfg f =
         ((with_retry_go cfg f 2 (cfg.max_attempts - 1)).1,
          retry_delay cfg 1 :: (with_retry_go cfg f 2 (cfg.max_attempts - 1)).2)) ∧
    ((∀ i, g i = .requestError m) →
       with_retry cfg g =
         (.exhausted (some (.request m)),
          (List.range (cfg.max_attempts - 1)).map (fun i => retry_delay cfg (1 + i)))) := by
  refine ⟨?_, ?_, ?_⟩
  · intro hf hc
    unfold with_retry
    obtain ⟨r, hr⟩ : ∃ r, cfg.max_attempts = r + 1 := ⟨cfg.max_attempts - 1, by omega⟩
    rw [hr]
    simp only [with_retry_go, hf, hcodes]
    rw [if_neg hc]
  · intro hf hc hmax2
    unfold with_retry
    obtain ⟨r, hr⟩ : ∃ r, cfg.max_attempts = r + 1 := ⟨cfg.max_attempts - 1, by omega⟩
    have hrne : r ≠ 0 := by omega
    rw [hr]
    simp only [Nat.add_sub_cancel]
    simp only [with_retry_go, hf, hcodes]
    rw [if_pos hc, if_neg hrne]
  · intro hg
    have h := with_retry_go_all_retryable cfg g cfg.max_attempts 1 hmax
      (fun i _ _ => by rw [hg i]; rfl)
    unfold with_retry
    rw [h, hg]
    rfl

/-- C5 witness: with the default configuration, a 401 on the first attempt
is raised at once with no sleeps; a 503 on the first attempt leads to a
sleep and a second attempt; all-network-error calls exhaust the budget. -/
theorem with_retry_retryable_classification_witness :
    with_retry ({} : RetryConfig) (fun _ => (.httpStatusError 401 : CallOutcome Nat)) =
      (.raised 401 1, []) ∧
    with_retry ({} : RetryConfig) (fun _ => (.httpStatusError 503 : CallOutcome Nat)) =
      ((with_retry_go ({} : RetryConfig) (fun _ => (.httpStatusError 503 : CallOutcome Nat)) 2 2).1,
       retry_delay {} 1 ::
         (with_retry_go ({} : RetryConfig) (fun _ => (.httpStatusError 503 : CallOutcome Nat)) 2 2).2) ∧
    with_retry ({} : RetryConfig) (fun _ => (.requestError "conn reset" : CallOutcome Nat)) =
      (.exhausted (some (.request "conn reset")),
       (List.range 2).map (fun i => retry_delay {} (1 + i))) := by
  refine ⟨?_, ?_, ?_⟩
  · exact (with_retry_retryable_classification ({} : RetryConfig)
      (fun _ => (.httpStatusError 401 : CallOutcome Nat))
      (fun _ => (.httpStatusError 401 : CallOutcome Nat)) 401 "x" rfl (by decide)).1
      rfl (by decide)
  · exact (with_retry_retryable_classification ({} : RetryConfig)
      (fun _ => (.httpStatusError 503 : CallOutcome Nat))
      (fun _ => (.httpStatusError 503 : CallOutcome Nat)) 503 "x" rfl (by decide)).2.1
      rfl (by decide) (by decide)
  · exact (with_retry_retryable_classification ({} : RetryConfig)
      (fun _ => (.requestError "conn reset" : CallOutcome Nat))
      (fun _ => (.requestError "conn reset" : CallOutcome Nat)) 0 "conn reset" rfl
      (by decide)).2.2 (fun _ => rfl)

/-- C6: every delay actually slept before retry number `n` equals
`min(base_delay * exponential_base ^ (n - 1), max_delay)` — the schedule
starts at the base delay and multiplies by the exponential base each
attempt, capped at the max delay — and when every attempt fails
retryably, the loop raises the distinct exhaustion error whose cause is
the final attempt's exception. -/
theorem with_retry_backoff_schedule (cfg : RetryConfig)
    (f : Nat → CallOutcome α) (n : Nat) (d : ℚ)
    (hn : 1 ≤ n)
    (hd : (with_retry cfg f).2.get? (n - 1) = some d) :
    d = min (cfg.base_delay * cfg.exponential_base ^ (n - 1)) cfg.max_delay ∧
    (1 ≤ cfg.max_attempts →
      (∀ i, 1 ≤ i → i ≤ cfg.max_attempts → (f i).isRetryableFail cfg = true) →
      (with_retry cfg f).1 = .exhausted ((f cfg.max_attempts).failure)) := by
  constructor
  · obtain ⟨k, hk⟩ := with_retry_go_trace cfg f cfg.max_attempts 1
    unfold with_retry at hd
    rw [hk] at hd
    have hdk := range_map_get_eq k (fun i => retry_delay cfg (1 + i)) (n - 1) d hd
    rw [hdk]
    unfold retry_delay
    simp only [show 1 + (n - 1) - 1 = n - 1 from by omega]
  · intro hmax hall
    have h := with_retry_go_all_retryable cfg f cfg.max_attempts 1 hmax
      (fun i h1 h2 => hall i h1 (by omega))
    unfold with_retry
    rw [h]
    rw [show 1 + cfg.max_attempts - 1 = cfg.max_attempts from by omega]

/-- C6 witness: with the default configuration (base 1, factor 2, cap 30,
3 attempts) and every attempt returning HTTP 503, the second sleep is 2
seconds and the loop ends in exhaustion caused by the last 503. -/
theorem with_retry_backoff_schedule_witness :
    ((2 : ℚ) = min ((1 : ℚ) * (2 : ℚ) ^ (2 - 1)) 30) ∧
    (with_retry ({} : RetryConfig) (fun _ => (.httpStatusError 503 : CallOutcome Nat))).1 =
      .exhausted (some (.httpStatus 503)) := by
  have hd : (with_retry ({} : RetryConfig)
      (fun _ => (.httpStatusError 503 : CallOutcome Nat))).2.get? (2 - 1) = some 2 := by
    show some (retry_delay {} 2) = some 2
    have h2 : retry_delay ({} : RetryConfig) 2 = 2 := by
      unfold retry_delay
      norm_num
    rw [h2]
  have h := with_retry_backoff_schedule ({} : RetryConfig)
    (fun _ => (.httpStatusError 503 : CallOutcome Nat)) 2 2 (by decide) hd
  exact ⟨h.1, h.2 (by decide) (fun i _ _ => rfl)⟩

/-- Slicing a string no longer than the bound leaves it unchanged. -/
theorem pySlice_of_le (s : String) (n : Nat) (h : s.length ≤ n) :
    pySlice s n = s := by
  cases s with
  | mk data =>
    unfold pySlice
    congr 1
    exact List.take_of_length_le h

/-- A list starts with itself (followed by anything). -/
theorem charsStartWith_append (needle rest : List Char) :
    charsStartWith needle (needle ++ rest) = true := by
  induction needle with
  | nil => rfl
  | cons a as ih => simp [charsStartWith, ih]

/-- A needle occurring between two contexts is found. -/
theorem charsContainSub_append (pre needle rest : List Char) :
    charsContainSub needle (pre ++ (needle ++ rest)) = true := by
  induction pre with
  | nil =>
    cases needle with
    | nil =>
      cases rest with
      | nil => rfl
      | cons c cs => simp [charsContainSub, charsStartWith]
    | cons a as =>
      simp only [List.nil_append, charsContainSub, Bool.or_eq_true]
      exact Or.inl (charsStartWith_append (a :: as) rest)
  | cons p ps ih =>
    simp [charsContainSub, ih]

set_option maxRecDepth 10000 in
/-- C4 counterexample: for the 10-character document `"0123456789"` with
`max_text_length = 5` the built prompt does contain the Dutch truncation
notice but does not contain the literal string `"[TRUNCATED]"` anywhere,
refuting the claim that a `"[TRUNCATED]"` marker is appended. -/
theorem build_extraction_prompt_no_literal_trunc_marker :
    5 < ("0123456789" : String).length ∧
    charsContainSub ("[TRUNCATED]" : String).data
        (build_extraction_prompt "0123456789" none 5 .json).data = false ∧
    charsContainSub ("[... TEKST AFGEKAPT WEGENS LENGTE ...]" : String).data
        (build_extraction_prompt "0123456789" none 5 .json).data = true := by
  refine ⟨by decide, ?_, ?_⟩ <;> rfl

/-- C4 (amended): when the document text is longer than
`max_text_length`, the rendered prompt embeds exactly the first
`max_text_length` characters of the text followed by the appended Dutch
truncation marker `"\n\n[... TEKST AFGEKAPT WEGENS LENGTE ...]"` (not the
untruncated text); text of length at most `max_text_length` is embedded
unchanged, with no marker appended. -/
theorem build_extraction_prompt_truncation (text : String)
    (hint : Option String) (maxLen : Nat) (mode : OutputMode) :
    (maxLen < text.length →
      build_extraction_prompt text hint maxLen mode =
        renderExtractionTemplate mode (pySlice text maxLen ++ truncationNotice)
          (publisherSection hint)) ∧
    (text.length ≤ maxLen →
      build_extraction_prompt text hint maxLen mode =
        renderExtractionTemplate mode text (publisherSection hint)) := by
  constructor
  · intro h
    unfold build_extraction_prompt
    rw [if_pos (by omega)]
  · intro h
    unfold build_extraction_prompt
    rw [if_neg (by omega), pySlice_of_le text maxLen h]

/-- C4 witness: the truncating and non-truncating cases evaluated on
concrete inputs. -/
theorem build_extraction_prompt_truncation_witness :
    build_extraction_prompt "0123456789" none 5 .json =
      renderExtractionTemplate .json (pySlice "0123456789" 5 ++ truncationNotice)
        (publisherSection none) ∧
    build_extraction_prompt "kort stuk." (some "Gemeente Utrecht") 100 .xml =
      renderExtractionTemplate .xml "kort stuk."
        (publisherSection (some "Gemeente Utrecht")) := by
  constructor
  · exact (build_extraction_prompt_truncation "0123456789" none 5 .json).1 (by decide)
  · exact (build_extraction_prompt_truncation "kort stuk."
      (some "Gemeente Utrecht") 100 .xml).2 (by decide)

/-! ## Invariant and orchestrator theorems -/

/-- Inversion of a successful `Except` bind. -/
theorem except_bind_ok {ε α β : Type} (m : Except ε α) (f : α → Except ε β) (b : β) :
    m >>= f = Except.ok b ↔ ∃ a, m = Except.ok a ∧ f a = Except.ok b := by
  cases m <;> simp [Bind.bind, Except.bind]

/-- A list that is not `isEmpty` has positive length. -/
theorem length_pos_of_not_isEmpty {α : Type} {l : List α} (h : ¬ l.isEmpty = true) :
    1 ≤ l.length := by
  cases l with
  | nil => simp at h
  | cons a t => simp

/-- The XML classification parser always yields at least one category. -/
theorem xml_parse_classificatiecollectie_min_one (elem : Option XmlElem) :
    1 ≤ (xml_parse_classificatiecollectie elem).informatiecategorieen.length := by
  cases elem with
  | none => simp [xml_parse_classificatiecollectie]
  | some el =>
    simp only [xml_parse_classificatiecollectie]
    split
    · simp
    · rename_i hne
      exact length_pos_of_not_isEmpty hne

/-- The XML handling parser never returns an empty list on success. -/
theorem xml_parse_documenthandelingen_min_one (elem : Option XmlElem)
    (publisher : Organisatie) (now : PyDateTime) (l : List DocumentHandeling)
    (h : xml_parse_documenthandelingen elem publisher now = .ok l) :
    1 ≤ l.length := by
  unfold xml_parse_documenthandelingen at h
  rw [except_bind_ok] at h
  obtain ⟨hs, _, hif⟩ := h
  by_cases he : hs.isEmpty
  · rw [if_pos he] at hif
    simp only [pure, Except.pure, Except.ok.injEq] at hif
    subst hif
    simp
  · rw [if_neg he] at hif
    simp only [pure, Except.pure, Except.ok.injEq] at hif
    subst hif
    exact length_pos_of_not_isEmpty he

/-- C1: every record successfully produced by either transformer entry
point satisfies the two minimum-cardinality invariants: at least one
information category and at least one handling event (with the default
category or the synthesised registration event injected when needed). -/
theorem metadata_record_min_cardinalities :
    (∀ (j : Json) (hint : Option PublisherHint) (now : PyDateTime) (md : DiWooMetadata),
       transform_to_diwoo j hint now = .ok md →
       1 ≤ md.classificatiecollectie.informatiecategorieen.length ∧
       1 ≤ md.documenthandelingen.length) ∧
    (∀ (fromstring : String → Except String XmlElem) (xsd : Option (XmlElem → Bool))
       (s : String) (validate : Bool) (now : PyDateTime) (md : DiWooMetadata),
       parse_xml_to_diwoo fromstring xsd s validate now = .ok md →
       1 ≤ md.classificatiecollectie.informatiecategorieen.length ∧
       1 ≤ md.documenthandelingen.length) := by
  constructor
  · intro j hint now md h
    cases j with
    | null => simp [transform_to_diwoo] at h
    | bool b => simp [transform_to_diwoo] at h
    | num q => simp [transform_to_diwoo] at h
    | str s => simp [transform_to_diwoo] at h
    | arr xs => simp [transform_to_diwoo] at h
    | obj fields =>
      simp only [transform_to_diwoo, except_bind_ok] at h
      obtain ⟨pub, hpub, ver, hver, ops, hops, ts, hts, ot, hot, vt, hvt, alt, halt,
        tc, htc, ci, hci, cats, hcats, ds, hds, tw, htw, cd, hcd, g, hg, dr, hdr,
        lang, hlang, ids, hids, oms, homs, no, hno, agg, hagg, hok⟩ := h
      simp only [Except.ok.injEq] at hok
      subst hok
      refine ⟨?_, by simp⟩
      simp only []
      split
      · simp
      · rename_i hne
        exact length_pos_of_not_isEmpty hne
  · intro fromstring xsd s validate now md h
    simp only [parse_xml_to_diwoo, except_bind_ok] at h
    obtain ⟨root, hroot, u, hu, diwoo, hdiwoo, pub, hpub, ver, hver, ops, hops,
      tc, htc, hs, hhs, hok⟩ := h
    simp only [Except.ok.injEq] at hok
    subst hok
    exact ⟨xml_parse_classificatiecollectie_min_one _,
      xml_parse_documenthandelingen_min_one _ _ _ _ hhs⟩

/-- C1 witness: both entry points evaluated on concrete inputs. -/
theorem metadata_record_min_cardinalities_witness :
    (1 ≤ ((transform_to_diwoo jInvariantSample none nowSample).toOption.getD
        mdFallback).classificatiecollectie.informatiecategorieen.length ∧
     1 ≤ ((transform_to_diwoo jInvariantSample none nowSample).toOption.getD
        mdFallback).documenthandelingen.length) ∧
    (1 ≤ ((parse_xml_to_diwoo (fun _ => .ok xmlInvariantSample) none "<xml/>" false
        nowSample).toOption.getD mdFallback).classificatiecollectie.informatiecategorieen.length ∧
     1 ≤ ((parse_xml_to_diwoo (fun _ => .ok xmlInvariantSample) none "<xml/>" false
        nowSample).toOption.getD mdFallback).documenthandelingen.length) := by
  constructor
  · exact metadata_record_min_cardinalities.1 jInvariantSample none nowSample
      ((transform_to_diwoo jInvariantSample none nowSample).toOption.getD mdFallback) rfl
  · exact metadata_record_min_cardinalities.2 (fun _ => .ok xmlInvariantSample) none
      "<xml/>" false nowSample
      ((parse_xml_to_diwoo (fun _ => .ok xmlInvariantSample) none "<xml/>" false
        nowSample).toOption.getD mdFallback) rfl

/-- C2: `generate` is a total function into responses — every pipeline
failure (client exception, malformed JSON, XML parse/validation error,
domain validation error) becomes a `success = false` value rather than a
propagated exception — and in every returned response the `suggestion`
field is populated exactly when `success` is true and the `error` field
exactly when `success` is false. -/
theorem generate_failure_is_a_value (env : GenEnv)
    (req : MetadataGenerationRequest) (mode : OutputMode) (vxml : Bool) :
    ((generate env req mode vxml).success = true ↔
      (generate env req mode vxml).suggestion.isSome = true) ∧
    ((generate env req mode vxml).success = true ↔
      (generate env req mode vxml).error = none) := by
  unfold generate
  refine ⟨?_, ?_⟩ <;>
  · cases hc : env.client_result with
    | error e => simp
    | ok raw =>
      cases mode with
      | xml =>
        cases hx : parse_xml_to_diwoo env.xml_fromstring env.xsd_schema raw vxml env.now <;>
          simp [hx]
      | json =>
        cases hj : env.json_loads raw with
        | error e => simp [hj]
        | ok llm =>
          cases ht : transform_to_diwoo llm req.publisher_hint env.now with
          | error e => simp [hj, ht]
          | ok mdd =>
            cases hcf : (if req.include_confidence then extract_confidence llm
                   else .ok ⟨7 / 10, []⟩) <;> simp [hj, ht, hcf]

/-- C3 (actual behaviour at the Scenario A input): transforming
`{"officiele_titel": "Test", "informatiecategorieen":
[{"categorie": "ADVIEZEN"}]}` with no publisher hint succeeds with
publisher label `"Onbekende organisatie"` and exactly one synthesised
handling event, but — because the absent `titelcollectie` and
`classificatiecollectie` keys default to `{}`, which is a dict, so the
legacy flat keys are never consulted — the single category is the
injected `OVERIGE_BESLUITEN_AS` default rather than `ADVIEZEN`, and the
title falls back to `"Onbekende titel"` instead of `"Test"`. -/
theorem scenario_a_actual_behaviour :
    ((transform_to_diwoo jScenarioA none nowSample).toOption.getD
        mdFallback).publisher.label = "Onbekende organisatie" ∧
    ((transform_to_diwoo jScenarioA none nowSample).toOption.getD
        mdFallback).classificatiecollectie.informatiecategorieen =
      [⟨.OVERIGE_BESLUITEN_AS⟩] ∧
    ((transform_to_diwoo jScenarioA none nowSample).toOption.getD
        mdFallback).classificatiecollectie.informatiecategorieen ≠ [⟨.ADVIEZEN⟩] ∧
    ((transform_to_diwoo jScenarioA none nowSample).toOption.getD
        mdFallback).titelcollectie.officiele_titel = "Onbekende titel" ∧
    ((transform_to_diwoo jScenarioA none nowSample).toOption.getD
        mdFallback).documenthandelingen.length = 1 ∧
    (transform_to_diwoo jScenarioA none nowSample).toOption.isSome = true := by
  exact ⟨rfl, rfl, by decide, rfl, rfl, rfl⟩

/-- C7: an input that is not well-formed XML after cleaning makes
`parse_xml_to_diwoo` raise `XMLParseError` (no repair or fallback), and
`generate` converts it into a `success = false` response whose error
message contains `"invalid XML"`. -/
theorem xml_syntax_error_surfaced (env : GenEnv)
    (req : MetadataGenerationRequest) (vxml : Bool) (raw m : String)
    (hclient : env.client_result = .ok raw)
    (hparse : env.xml_fromstring (clean_xml_response raw) = .error m) :
    parse_xml_to_diwoo env.xml_fromstring env.xsd_schema raw vxml env.now =
      .error (.xmlParse ("Invalid XML: " ++ m)) ∧
    generate env req .xml vxml =
      { success := false, request_id := env.request_id,
        error := some ("LLM returned invalid XML: " ++ ("Invalid XML: " ++ m)) } ∧
    charsContainSub "invalid XML".data
      ("LLM returned invalid XML: " ++ ("Invalid XML: " ++ m)).data = true := by
  have hp : parse_xml_to_diwoo env.xml_fromstring env.xsd_schema raw vxml env.now =
      .error (.xmlParse ("Invalid XML: " ++ m)) := by
    unfold parse_xml_to_diwoo
    simp only [hparse]
    rfl
  refine ⟨hp, ?_, ?_⟩
  · unfold generate
    simp only [hclient, hp]
    rfl
  · have hc : ("LLM returned invalid XML: " : String).data ++
        ("Invalid XML: " : String).data =
        "LLM returned ".data ++ ("invalid XML".data ++ (": Invalid XML: " : String).data) := by
      decide
    rw [String.data_append, String.data_append, ← List.append_assoc, hc,
      List.append_assoc, List.append_assoc]
    exact charsContainSub_append _ _ _

/-- C7 witness: a concrete environment whose XML parser rejects its
input. -/
theorem xml_syntax_error_surfaced_witness :
    parse_xml_to_diwoo envXmlError.xml_fromstring envXmlError.xsd_schema
      "<diwoo:Document><niet-gesloten" false envXmlError.now =
      .error (.xmlParse ("Invalid XML: " ++ "unclosed token: line 1, column 0")) ∧
    generate envXmlError reqSample .xml false =
      { success := false, request_id := "req-xml-err",
        error := some ("LLM returned invalid XML: " ++
          ("Invalid XML: " ++ "unclosed token: line 1, column 0")) } ∧
    charsContainSub "invalid XML".data
      ("LLM returned invalid XML: " ++
        ("Invalid XML: " ++ "unclosed token: line 1, column 0")).data = true := by
  exact xml_syntax_error_surfaced envXmlError reqSample false
    "<diwoo:Document><niet-gesloten" "unclosed token: line 1, column 0" rfl rfl

/-- C10: when the top-level `titelcollectie` and `classificatiecollectie`
keys are entirely absent, the `.get(key, {})` default is a dict, so the
nested branch runs on an empty dict and any top-level legacy flat keys
(`officiele_titel`, `informatiecategorieen`, ...) are ignored: the record
gets the `"Onbekende titel"` default title and the single injected
default category. -/
theorem legacy_flat_keys_ignored_when_nested_keys_absent
    (fields : List (String × Json)) (hint : Option PublisherHint)
    (now : PyDateTime) (md : DiWooMetadata)
    (ht : jsonGet fields "titelcollectie" = none)
    (hc : jsonGet fields "classificatiecollectie" = none)
    (h : transform_to_diwoo (.obj fields) hint now = .ok md) :
    md.titelcollectie.officiele_titel = "Onbekende titel" ∧
    md.classificatiecollectie.informatiecategorieen = [⟨.OVERIGE_BESLUITEN_AS⟩] := by
  have hT : json_titel_fields fields = (.str "Onbekende titel", none, none) := by
    unfold json_titel_fields jsonGetD
    rw [ht]
    rfl
  have hC : json_classificatie_fields fields = (.arr [], none, none) := by
    unfold json_classificatie_fields jsonGetD
    rw [hc]
    rfl
  simp only [transform_to_diwoo, hT, hC, except_bind_ok,
    show pySubscript2000 (Json.str "Onbekende titel") =
      Except.ok (Json.str "Onbekende titel") from rfl,
    show pydantic_opt_str_list (none : Option Json) = Except.ok none from rfl,
    show mkTitelCollectie "Onbekende titel" none none =
      Except.ok ⟨"Onbekende titel", none, none⟩ from rfl,
    show pyIter (Json.arr []) = Except.ok ([] : List Json) from rfl,
    show collect_informatiecategorieen [] =
      Except.ok ([] : List InformatieCategorieMeta) from rfl,
    Except.ok.injEq] at h
  obtain ⟨pub, hpub, ver, hver, ops, hops, ts, hts, ot, hot, vt, hvt, alt, halt,
    tc, htc, ci, hci, cats, hcats, ds, hds, tw, htw, cd, hcd, g, hg, dr, hdr,
    lang, hlang, ids, hids, oms, homs, no, hno, agg, hagg, hok⟩ := h
  subst hts
  have hot2 : "Onbekende titel" = ot := by injection hot
  subst hot2
  subst hvt
  subst halt
  have htc2 : (⟨"Onbekende titel", none, none⟩ : TitelCollectie) = tc := by injection htc
  subst htc2
  subst hci
  have hcats2 : ([] : List InformatieCategorieMeta) = cats := by injection hcats
  subst hcats2
  subst hok
  exact ⟨rfl, rfl⟩

/-- C10 witness: all-flat-key input. -/
theorem legacy_flat_keys_ignored_witness :
    ((transform_to_diwoo (.obj flatFieldsSample) none nowSample).toOption.getD
        mdFallback).titelcollectie.officiele_titel = "Onbekende titel" ∧
    ((transform_to_diwoo (.obj flatFieldsSample) none nowSample).toOption.getD
        mdFallback).classificatiecollectie.informatiecategorieen =
      [⟨.OVERIGE_BESLUITEN_AS⟩] := by
  exact legacy_flat_keys_ignored_when_nested_keys_absent flatFieldsSample none nowSample
    ((transform_to_diwoo (.obj flatFieldsSample) none nowSample).toOption.getD mdFallback)
    rfl rfl rfl

/-- `getLast?` of a non-empty list is never `none`. -/
theorem getLast?_cons_ne_none {α : Type} (y : α) (ys : List α) :
    (y :: ys).getLast? ≠ none := by
  induction ys generalizing y with
  | nil => simp
  | cons z zs ih => rw [List.getLast?_cons_cons]; exact ih z

/-- The last-write-wins fold over system messages keeps exactly the
content of the last system message (if any). -/
theorem foldl_system_text_eq_getLast (messages : List ChatMessage) :
    ∀ acc : Option String,
      messages.foldl (fun acc m => if m.role = "system" then some m.content else acc) acc =
        (match (messages.filter fun m => m.role = "system").getLast? with
         | some sm => some sm.content
         | none => acc) := by
  induction messages with
  | nil => intro acc; rfl
  | cons m ms ih =>
    intro acc
    rw [List.foldl_cons, List.filter_cons]
    by_cases hm : m.role = "system"
    · rw [if_pos hm, ih (some m.content), decide_eq_true hm]
      simp only [if_true]
      cases hfm : ms.filter (fun x => decide (x.role = "system")) with
      | nil => rfl
      | cons y ys =>
        rw [List.getLast?_cons_cons]
        cases hgl : (y :: ys).getLast? with
        | none => exact absurd hgl (getLast?_cons_ne_none y ys)
        | some z => rfl
    · rw [if_neg hm, ih acc, decide_eq_false hm]
      simp

/-- C8 counterexample: a system message with empty content is dropped
from the payload entirely — the payload has no `system` field — refuting
the claim that the system message content is always placed in the
top-level `system` field. -/
theorem anthropic_empty_system_content_dropped :
    (anthropic_build_payload [⟨"system", ""⟩, ⟨"user", "hallo"⟩] "m" 0 16).system = none ∧
    (anthropic_build_payload [⟨"system", ""⟩, ⟨"user", "hallo"⟩] "m" 0 16).system ≠
      some "" := by
  exact ⟨rfl, by decide⟩

/-- C8 (amended): on the Anthropic-style path only non-system messages
are sent in the `messages` array; the content of the last system message
is placed in the top-level `system` field when it is non-empty (an
empty-string system content yields no `system` field, by Python
truthiness); the normalised response content is the `text` fields of the
`"text"`-typed blocks joined by newlines; and the reported
`total_tokens` is `input_tokens + output_tokens`. -/
theorem anthropic_payload_and_response_conversion
    (messages : List ChatMessage) (model : String) (temperature : ℚ)
    (max_tokens : Nat) (data : AnthropicResponseData) :
    (anthropic_build_payload messages model temperature max_tokens).messages =
      (messages.filter fun m => m.role ≠ "system") ∧
    (anthropic_build_payload messages model temperature max_tokens).system =
      (match (messages.filter fun m => m.role = "system").getLast? with
       | some sm => if sm.content = "" then none else some sm.content
       | none => none) ∧
    (convert_anthropic_response data).choices =
      [⟨0, ⟨"assistant", String.intercalate "\n"
        (((data.content.filter fun b => b.type = "text").map fun b => b.text))⟩,
        data.stop_reason⟩] ∧
    (∀ u, (convert_anthropic_response data).usage = some u →
      u.total_tokens = u.prompt_tokens + u.completion_tokens) := by
  refine ⟨rfl, ?_, rfl, ?_⟩
  · show (match messages.foldl
        (fun acc m => if m.role = "system" then some m.content else acc)
        (none : Option String) with
      | some s => if s = "" then none else some s
      | none => none) = _
    rw [foldl_system_text_eq_getLast messages none]
    cases (messages.filter fun m => m.role = "system").getLast? <;> rfl
  · intro u hu
    unfold convert_anthropic_response at hu
    cases hd : data.usage with
    | none => rw [hd] at hu; simp at hu
    | some du =>
      rw [hd] at hu
      have hu2 : (⟨du.input_tokens, du.output_tokens,
          du.input_tokens + du.output_tokens⟩ : ChatCompletionUsage) = u := by
        injection hu
      subst hu2
      rfl

/-- C8 witness: payload building and response conversion on concrete
values. -/
theorem anthropic_payload_and_response_conversion_witness :
    (anthropic_build_payload anthMsgsSample "claude-x" 0 1024).messages =
      [⟨"user", "Analyseer dit document."⟩] ∧
    (anthropic_build_payload anthMsgsSample "claude-x" 0 1024).system =
      some "Je bent een metadata-expert." ∧
    (convert_anthropic_response anthRespSample).choices =
      [⟨0, ⟨"assistant", "Hallo\nwereld"⟩, some "end_turn"⟩] ∧
    (⟨10, 5, 15⟩ : ChatCompletionUsage).total_tokens =
      (⟨10, 5, 15⟩ : ChatCompletionUsage).prompt_tokens +
        (⟨10, 5, 15⟩ : ChatCompletionUsage).completion_tokens := by
  have h := anthropic_payload_and_response_conversion anthMsgsSample "claude-x" 0 1024
    anthRespSample
  refine ⟨?_, ?_, ?_, h.2.2.2 ⟨10, 5, 15⟩ rfl⟩
  · rw [h.1]; rfl
  · rw [h.2.1]; rfl
  · rw [h.2.2.1]; rfl
